import Mathlib

/-!
Shallow embedding of the RISC-V CSR subsystem of target/riscv/csr.c
(system-emulation configuration, i.e. the code compiled without
CONFIG_USER_ONLY), together with proofs about the CSR access gate, the
accessor table and the per-register accessors.

Machine words (C target_ulong) are modelled as Nat with the word width
taken from a Config record (64 bits for TARGET_RISCV64, 32 bits for
TARGET_RISCV32); bitwise complement and shifts truncate at that width
exactly as the C operators do.  The collaborators that live outside
csr.c (host tick sources, the interrupt aggregator, the FP flag cache,
the PMP module) are modelled from the specification, as indicated on
their definitions.
-/

/-- Static per-build / per-cpu configuration: target word size
(TARGET_RISCV64 vs TARGET_RISCV32), whether the hart has an MMU
(RISCV_FEATURE_MMU), and whether deterministic instruction counting
(use_icount) is engaged. -/
structure Config where
  rv64 : Bool
  mmu : Bool
  useIcount : Bool
deriving Repr, DecidableEq

/-- Width in bits of target_ulong. -/
def wbits (cfg : Config) : Nat := if cfg.rv64 then 64 else 32

/-- The all-ones target_ulong. -/
def wones (cfg : Config) : Nat := 2 ^ wbits cfg - 1

/-- C bitwise complement of a target_ulong. -/
def wnot (cfg : Config) (x : Nat) : Nat := wones cfg ^^^ (x &&& wones cfg)

/-- Lowest set bit of a contiguous mask: mask AND NOT (mask << 1), the
denominator and scaling factor of the get_field / set_field macros
(the shift truncates at the word width as in C). -/
def lowestBit (cfg : Config) (mask : Nat) : Nat :=
  mask &&& wnot cfg ((mask <<< 1) &&& wones cfg)

/-- Modelled from the spec: the qemu RISC-V get_field macro of
cpu_bits.h —  extract a contiguous bit field:
(reg AND mask) / (mask AND NOT (mask << 1)). -/
def get_field (cfg : Config) (reg mask : Nat) : Nat :=
  (reg &&& mask) / lowestBit cfg mask

/-- Modelled from the spec: the qemu RISC-V set_field macro of
cpu_bits.h — deposit a contiguous bit field:
(reg AND NOT mask) OR ((val * lowbit(mask)) AND mask). -/
def set_field (cfg : Config) (reg mask val : Nat) : Nat :=
  (reg &&& wnot cfg mask) ||| ((val * lowestBit cfg mask) &&& mask)

/-! Architectural constants.  The privilege levels, the privilege-spec
version numbers and the MISA extension letters are taken from cpu.h;
the CSR numbers and the bit layouts of mstatus / sstatus / mip / satp /
fcsr are fixed by the published RISC-V privileged ISA (modelled from
the spec, matching cpu_bits.h). -/
def PRV_U : Nat := 0

def PRV_S : Nat := 1

def PRV_H : Nat := 2

def PRV_M : Nat := 3

def PRIV_VERSION_1_09_1 : Nat := 0x00010901

def PRIV_VERSION_1_10_0 : Nat := 0x00011000

def RVS : Nat := 1 <<< 18

def RVU : Nat := 1 <<< 20

def MSTATUS_UIE : Nat := 0x1

def MSTATUS_SIE : Nat := 0x2

def MSTATUS_MIE : Nat := 0x8

def MSTATUS_UPIE : Nat := 0x10

def MSTATUS_SPIE : Nat := 0x20

def MSTATUS_MPIE : Nat := 0x80

def MSTATUS_SPP : Nat := 0x100

def MSTATUS_MPP : Nat := 0x1800

def MSTATUS_FS : Nat := 0x6000

def MSTATUS_XS : Nat := 0x18000

def MSTATUS_MPRV : Nat := 0x20000

def MSTATUS_SUM : Nat := 0x40000

def MSTATUS_MXR : Nat := 0x80000

def MSTATUS_VM : Nat := 0x1F000000

/-- mstatus.SD is the top bit of the word: bit 63 on RV64, bit 31 on
RV32. -/
def MSTATUS_SD (cfg : Config) : Nat :=
  if cfg.rv64 then 0x8000000000000000 else 0x80000000

def SSTATUS_UIE : Nat := 0x1

def SSTATUS_SIE : Nat := 0x2

def SSTATUS_UPIE : Nat := 0x10

def SSTATUS_SPIE : Nat := 0x20

def SSTATUS_SPP : Nat := 0x100

def SSTATUS_FS : Nat := 0x6000

def SSTATUS_XS : Nat := 0x18000

def SSTATUS_SUM : Nat := 0x40000

def SSTATUS_MXR : Nat := 0x80000

def SSTATUS_SD (cfg : Config) : Nat := MSTATUS_SD cfg

def MIP_SSIP : Nat := 1 <<< 1

def MIP_MSIP : Nat := 1 <<< 3

def MIP_STIP : Nat := 1 <<< 5

def MIP_MTIP : Nat := 1 <<< 7

def MIP_SEIP : Nat := 1 <<< 9

def RISCV_EXCP_INST_ADDR_MIS : Nat := 0x0

def RISCV_EXCP_INST_ACCESS_FAULT : Nat := 0x1

def RISCV_EXCP_ILLEGAL_INST : Nat := 0x2

def RISCV_EXCP_BREAKPOINT : Nat := 0x3

def RISCV_EXCP_LOAD_ADDR_MIS : Nat := 0x4

def RISCV_EXCP_LOAD_ACCESS_FAULT : Nat := 0x5

def RISCV_EXCP_STORE_AMO_ADDR_MIS : Nat := 0x6

def RISCV_EXCP_STORE_AMO_ACCESS_FAULT : Nat := 0x7

def RISCV_EXCP_U_ECALL : Nat := 0x8

def RISCV_EXCP_S_ECALL : Nat := 0x9

def RISCV_EXCP_H_ECALL : Nat := 0xa

def RISCV_EXCP_M_ECALL : Nat := 0xb

def RISCV_EXCP_INST_PAGE_FAULT : Nat := 0xc

def RISCV_EXCP_LOAD_PAGE_FAULT : Nat := 0xd

def RISCV_EXCP_STORE_PAGE_FAULT : Nat := 0xf

def FSR_RD_SHIFT : Nat := 5

def FSR_RD : Nat := 0x7 <<< FSR_RD_SHIFT

def FSR_AEXC_SHIFT : Nat := 0

def FSR_AEXC : Nat := 0x1f <<< FSR_AEXC_SHIFT

/-- satp field masks (RV64 layout / RV32 layout). -/
def SATP_MODE (cfg : Config) : Nat :=
  if cfg.rv64 then 0xF000000000000000 else 0x80000000

def SATP_ASID (cfg : Config) : Nat :=
  if cfg.rv64 then 0x0FFFF00000000000 else 0x7FC00000

def SATP_PPN (cfg : Config) : Nat :=
  if cfg.rv64 then 0x00000FFFFFFFFFFF else 0x003FFFFF

def VM_1_09_MBARE : Nat := 0

def VM_1_09_SV32 : Nat := 8

def VM_1_09_SV39 : Nat := 9

def VM_1_09_SV48 : Nat := 10

def VM_1_10_MBARE : Nat := 0

def VM_1_10_SV32 : Nat := 1

def VM_1_10_SV39 : Nat := 8

def VM_1_10_SV48 : Nat := 9

def VM_1_10_SV57 : Nat := 10

def TARGET_PHYS_ADDR_SPACE_BITS (cfg : Config) : Nat :=
  if cfg.rv64 then 50 else 34

def PGSHIFT : Nat := 12

def CSR_FFLAGS : Nat := 0x001

def CSR_FRM : Nat := 0x002

def CSR_FCSR : Nat := 0x003

def CSR_CYCLE : Nat := 0xC00

def CSR_TIME : Nat := 0xC01

def CSR_INSTRET : Nat := 0xC02

def CSR_HPMCOUNTER3 : Nat := 0xC03

def CSR_HPMCOUNTER31 : Nat := 0xC1F

def CSR_CYCLEH : Nat := 0xC80

def CSR_INSTRETH : Nat := 0xC82

def CSR_HPMCOUNTER3H : Nat := 0xC83

def CSR_HPMCOUNTER31H : Nat := 0xC9F

def CSR_MCYCLE : Nat := 0xB00

def CSR_MINSTRET : Nat := 0xB02

def CSR_MCYCLEH : Nat := 0xB80

def CSR_MINSTRETH : Nat := 0xB82

def CSR_MHPMCOUNTER3 : Nat := 0xB03

def CSR_MHPMCOUNTER31 : Nat := 0xB1F

def CSR_MHPMCOUNTER3H : Nat := 0xB83

def CSR_MHPMCOUNTER31H : Nat := 0xB9F

def CSR_MHPMEVENT3 : Nat := 0x323

def CSR_MHPMEVENT31 : Nat := 0x33F

def CSR_MVENDORID : Nat := 0xF11

def CSR_MARCHID : Nat := 0xF12

def CSR_MIMPID : Nat := 0xF13

def CSR_MHARTID : Nat := 0xF14

def CSR_MSTATUS : Nat := 0x300

def CSR_MISA : Nat := 0x301

def CSR_MEDELEG : Nat := 0x302

def CSR_MIDELEG : Nat := 0x303

def CSR_MIE : Nat := 0x304

def CSR_MTVEC : Nat := 0x305

def CSR_MCOUNTEREN : Nat := 0x306

def CSR_MUCOUNTEREN : Nat := 0x320

def CSR_MSCOUNTEREN : Nat := 0x321

def CSR_MSCRATCH : Nat := 0x340

def CSR_MEPC : Nat := 0x341

def CSR_MCAUSE : Nat := 0x342

def CSR_MBADADDR : Nat := 0x343

def CSR_MIP : Nat := 0x344

def CSR_SSTATUS : Nat := 0x100

def CSR_SIE : Nat := 0x104

def CSR_STVEC : Nat := 0x105

def CSR_SCOUNTEREN : Nat := 0x106

def CSR_SSCRATCH : Nat := 0x140

def CSR_SEPC : Nat := 0x141

def CSR_SCAUSE : Nat := 0x142

def CSR_SBADADDR : Nat := 0x143

def CSR_SIP : Nat := 0x144

def CSR_SATP : Nat := 0x180

def CSR_PMPCFG0 : Nat := 0x3A0

def CSR_PMPCFG3 : Nat := 0x3A3

def CSR_PMPADDR0 : Nat := 0x3B0

def CSR_PMPADDR9 : Nat := 0x3B9

def CSR_PMPADDR15 : Nat := 0x3BF

/-- Machine constants of csr.c: the delegable interrupt set. -/
def delegable_ints : Nat := MIP_SSIP ||| MIP_STIP ||| MIP_SEIP

/-- Machine constants of csr.c: the full interrupt set. -/
def all_ints : Nat :=
  MIP_SSIP ||| MIP_STIP ||| MIP_SEIP ||| MIP_MSIP ||| MIP_MTIP

/-- Machine constants of csr.c: the delegable exception set. -/
def delegable_excps : Nat :=
  (1 <<< RISCV_EXCP_INST_ADDR_MIS) |||
  (1 <<< RISCV_EXCP_INST_ACCESS_FAULT) |||
  (1 <<< RISCV_EXCP_ILLEGAL_INST) |||
  (1 <<< RISCV_EXCP_BREAKPOINT) |||
  (1 <<< RISCV_EXCP_LOAD_ADDR_MIS) |||
  (1 <<< RISCV_EXCP_LOAD_ACCESS_FAULT) |||
  (1 <<< RISCV_EXCP_STORE_AMO_ADDR_MIS) |||
  (1 <<< RISCV_EXCP_STORE_AMO_ACCESS_FAULT) |||
  (1 <<< RISCV_EXCP_U_ECALL) |||
  (1 <<< RISCV_EXCP_S_ECALL) |||
  (1 <<< RISCV_EXCP_H_ECALL) |||
  (1 <<< RISCV_EXCP_M_ECALL) |||
  (1 <<< RISCV_EXCP_INST_PAGE_FAULT) |||
  (1 <<< RISCV_EXCP_LOAD_PAGE_FAULT) |||
  (1 <<< RISCV_EXCP_STORE_PAGE_FAULT)

/-- Machine constants of csr.c: the sstatus view mask under priv spec
1.9.1. -/
def sstatus_v1_9_mask (cfg : Config) : Nat :=
  SSTATUS_SIE ||| SSTATUS_SPIE ||| SSTATUS_UIE ||| SSTATUS_UPIE |||
  SSTATUS_SPP ||| SSTATUS_FS ||| SSTATUS_XS ||| SSTATUS_SUM |||
  SSTATUS_SD cfg

/-- Machine constants of csr.c: the sstatus view mask under priv spec
1.10. -/
def sstatus_v1_10_mask (cfg : Config) : Nat :=
  SSTATUS_SIE ||| SSTATUS_SPIE ||| SSTATUS_UIE ||| SSTATUS_UPIE |||
  SSTATUS_SPP ||| SSTATUS_FS ||| SSTATUS_XS ||| SSTATUS_SUM |||
  SSTATUS_MXR ||| SSTATUS_SD cfg

/-- The valid_vm_1_09 table of csr.c (indexed by vm AND 0xf). -/
def valid_vm_1_09 (cfg : Config) (vm : Nat) : Bool :=
  if cfg.rv64 then
    vm = VM_1_09_MBARE ∨ vm = VM_1_09_SV39 ∨ vm = VM_1_09_SV48
  else
    vm = VM_1_09_MBARE ∨ vm = VM_1_09_SV32

/-- The valid_vm_1_10 table of csr.c (indexed by vm AND 0xf). -/
def valid_vm_1_10 (cfg : Config) (vm : Nat) : Bool :=
  if cfg.rv64 then
    vm = VM_1_10_MBARE ∨ vm = VM_1_10_SV39 ∨ vm = VM_1_10_SV48 ∨
      vm = VM_1_10_SV57
  else
    vm = VM_1_10_MBARE ∨ vm = VM_1_10_SV32

/-- The per-hart architectural state of cpu.h (the fields the CSR layer
touches), extended with the modelled collaborators: the host tick
sources (read-only oracles), a TLB-flush counter standing for calls to
tlb_flush, and an interrupt-controller update counter standing for the
locked riscv_set_local_interrupt calls. -/
structure CPURISCVState where
  frm : Nat
  fflags : Nat
  mucounteren : Nat
  mscounteren : Nat
  priv_ver : Nat
  misa : Nat
  priv : Nat
  mhartid : Nat
  mstatus : Nat
  mip : Nat
  mie : Nat
  mideleg : Nat
  sptbr : Nat
  satp : Nat
  sbadaddr : Nat
  mbadaddr : Nat
  medeleg : Nat
  stvec : Nat
  sepc : Nat
  scause : Nat
  mtvec : Nat
  mepc : Nat
  mcause : Nat
  scounteren : Nat
  mcounteren : Nat
  sscratch : Nat
  mscratch : Nat
  pmpcfg : List Nat
  pmpaddr : List Nat
  hostTicks : Nat
  icount : Nat
  tlbFlushes : Nat
  irqUpdates : Nat
deriving Repr, DecidableEq

/-- riscv_has_ext of cpu.h: (misa AND ext) != 0. -/
def riscv_has_ext (env : CPURISCVState) (ext : Nat) : Bool :=
  env.misa &&& ext != 0

/-- Modelled from the spec: cpu_riscv_get_fflags, the FP accrued
exception flag cache read (missing fpu helper; the spec's
get_fflags(env) -> u5). -/
def cpu_riscv_get_fflags (env : CPURISCVState) : Nat := env.fflags

/-- Modelled from the spec: cpu_riscv_set_fflags, the FP accrued
exception flag cache write (missing fpu helper; the spec's
set_fflags(env, u5)). -/
def cpu_riscv_set_fflags (env : CPURISCVState) (v : Nat) : CPURISCVState :=
  { env with fflags := v }

/-- Modelled from the spec: tlb_flush — the MMU collaborator's
fire-and-forget flush request, counted. -/
def tlb_flush (env : CPURISCVState) : CPURISCVState :=
  { env with tlbFlushes := env.tlbFlushes + 1 }

/-- Modelled from the spec: riscv_set_local_interrupt (missing cpu
helper) — under the interrupt-controller mutex, atomically computes
old = mip; mip = (mip AND NOT mask) OR (value AND mask), re-evaluates
interrupt delivery (counted), and returns the prior value (a
uint32_t). -/
def riscv_set_local_interrupt (cfg : Config) (env : CPURISCVState)
    (mask value : Nat) : Nat × CPURISCVState :=
  (env.mip % 2 ^ 32,
   { env with mip := (env.mip &&& wnot cfg mask) ||| (value &&& mask),
              irqUpdates := env.irqUpdates + 1 })

/-- Modelled from the spec: pmpcfg_csr_read — the PMP module returns
the packed configuration word at the given index. -/
def pmpcfg_csr_read (env : CPURISCVState) (idx : Nat) : Nat :=
  env.pmpcfg.getD idx 0

/-- Modelled from the spec: pmpcfg_csr_write — the PMP module stores
the packed configuration word at the given index. -/
def pmpcfg_csr_write (env : CPURISCVState) (idx v : Nat) : CPURISCVState :=
  { env with pmpcfg := env.pmpcfg.set idx v }

/-- Modelled from the spec: pmpaddr_csr_read — the PMP module returns
the address word at the given index. -/
def pmpaddr_csr_read (env : CPURISCVState) (idx : Nat) : Nat :=
  env.pmpaddr.getD idx 0

/-- Modelled from the spec: pmpaddr_csr_write — the PMP module stores
the address word at the given index. -/
def pmpaddr_csr_write (env : CPURISCVState) (idx v : Nat) : CPURISCVState :=
  { env with pmpaddr := env.pmpaddr.set idx v }

/-! The CSR accessors of csr.c, in source order.  A read accessor
returns Option Nat (none standing for the C return value -1, some v
for success with *val = v); it never mutates the hart.  A write
accessor returns Option CPURISCVState (none for -1, in which case the
C function performed no mutation; some env2 for success).  A
read-modify-write accessor returns its old value together with the new
state (rmw_mip and rmw_sip always return 0 in C). -/
/-- read_fflags of csr.c. -/
def read_fflags (cfg : Config) (env : CPURISCVState) (csrno : Nat) :
    Option Nat :=
  if env.mstatus &&& MSTATUS_FS = 0 then none
  else some (cpu_riscv_get_fflags env)

/-- write_fflags of csr.c. -/
def write_fflags (cfg : Config) (env : CPURISCVState) (csrno val : Nat) :
    Option CPURISCVState :=
  if env.mstatus &&& MSTATUS_FS = 0 then none
  else some (cpu_riscv_set_fflags
    { env with mstatus := env.mstatus ||| MSTATUS_FS }
    (val &&& (FSR_AEXC >>> FSR_AEXC_SHIFT)))

/-- read_frm of csr.c. -/
def read_frm (cfg : Config) (env : CPURISCVState) (csrno : Nat) :
    Option Nat :=
  if env.mstatus &&& MSTATUS_FS = 0 then none
  else some env.frm

/-- write_frm of csr.c. -/
def write_frm (cfg : Config) (env : CPURISCVState) (csrno val : Nat) :
    Option CPURISCVState :=
  if env.mstatus &&& MSTATUS_FS = 0 then none
  else some { env with mstatus := env.mstatus ||| MSTATUS_FS,
                       frm := val &&& (FSR_RD >>> FSR_RD_SHIFT) }

/-- read_fcsr of csr.c. -/
def read_fcsr (cfg : Config) (env : CPURISCVState) (csrno : Nat) :
    Option Nat :=
  if env.mstatus &&& MSTATUS_FS = 0 then none
  else some ((cpu_riscv_get_fflags env <<< FSR_AEXC_SHIFT) |||
             (env.frm <<< FSR_RD_SHIFT))

/-- write_fcsr of csr.c. -/
def write_fcsr (cfg : Config) (env : CPURISCVState) (csrno val : Nat) :
    Option CPURISCVState :=
  if env.mstatus &&& MSTATUS_FS = 0 then none
  else some (cpu_riscv_set_fflags
    { env with mstatus := env.mstatus ||| MSTATUS_FS,
               frm := (val &&& FSR_RD) >>> FSR_RD_SHIFT }
    ((val &&& FSR_AEXC) >>> FSR_AEXC_SHIFT))

/-- counter_enabled of csr.c: the counter-enable bit for this CSR
number at the current privilege.  The uint32_t fields mucounteren and
mscounteren are read (zero-extended to target_ulong); at M (and H) the
selector is -1U = 0xFFFFFFFF. -/
def counter_enabled (cfg : Config) (env : CPURISCVState) (csrno : Nat) :
    Nat :=
  let ctr_en : Nat :=
    if env.priv = PRV_U then env.mucounteren % 2 ^ 32
    else if env.priv = PRV_S then env.mscounteren % 2 ^ 32
    else 0xFFFFFFFF
  (ctr_en >>> (csrno &&& 31)) &&& 1

/-- read_zero_counter of csr.c. -/
def read_zero_counter (cfg : Config) (env : CPURISCVState) (csrno : Nat) :
    Option Nat :=
  if counter_enabled cfg env csrno = 0 then none
  else some 0

/-- read_instret of csr.c (the host tick / icount sources are oracle
fields of the state, truncated to target_ulong). -/
def read_instret (cfg : Config) (env : CPURISCVState) (csrno : Nat) :
    Option Nat :=
  if counter_enabled cfg env csrno = 0 then none
  else if cfg.useIcount then some (env.icount &&& wones cfg)
  else some (env.hostTicks &&& wones cfg)

/-- read_instreth of csr.c (TARGET_RISCV32 only). -/
def read_instreth (cfg : Config) (env : CPURISCVState) (csrno : Nat) :
    Option Nat :=
  if counter_enabled cfg env csrno = 0 then none
  else if cfg.useIcount then some ((env.icount >>> 32) &&& wones cfg)
  else some ((env.hostTicks >>> 32) &&& wones cfg)

/-- read_zero of csr.c. -/
def read_zero (cfg : Config) (env : CPURISCVState) (csrno : Nat) :
    Option Nat :=
  some 0

/-- read_mhartid of csr.c. -/
def read_mhartid (cfg : Config) (env : CPURISCVState) (csrno : Nat) :
    Option Nat :=
  some env.mhartid

/-- read_mstatus of csr.c. -/
def read_mstatus (cfg : Config) (env : CPURISCVState) (csrno : Nat) :
    Option Nat :=
  some env.mstatus

/-- validate_vm of csr.c. -/
def validate_vm (cfg : Config) (env : CPURISCVState) (vm : Nat) : Bool :=
  if PRIV_VERSION_1_10_0 ≤ env.priv_ver then
    valid_vm_1_10 cfg (vm &&& 0xf)
  else valid_vm_1_09 cfg (vm &&& 0xf)

/-- write_mstatus of csr.c: version-dependent writable mask, TLB flush
on translation-affecting changes, silent drop of unsupported MPP
values, FS snapped to Dirty when non-Off, SD recomputed. -/
def write_mstatus (cfg : Config) (env : CPURISCVState) (csrno val : Nat) :
    Option CPURISCVState :=
  let mstatus := env.mstatus
  let mpp := get_field cfg val MSTATUS_MPP
  let env1 :=
    if env.priv_ver ≤ PRIV_VERSION_1_09_1 ∧
       (val ^^^ mstatus) &&& (MSTATUS_MXR ||| MSTATUS_MPP |||
         MSTATUS_MPRV ||| MSTATUS_SUM ||| MSTATUS_VM) ≠ 0 then
      tlb_flush env
    else env
  let mask1 : Nat :=
    if env.priv_ver ≤ PRIV_VERSION_1_09_1 then
      MSTATUS_SIE ||| MSTATUS_SPIE ||| MSTATUS_MIE ||| MSTATUS_MPIE |||
      MSTATUS_SPP ||| MSTATUS_FS ||| MSTATUS_MPRV ||| MSTATUS_SUM |||
      MSTATUS_MPP ||| MSTATUS_MXR |||
      (if validate_vm cfg env (get_field cfg val MSTATUS_VM) then
        MSTATUS_VM else 0)
    else 0
  let env2 :=
    if PRIV_VERSION_1_10_0 ≤ env.priv_ver ∧
       (val ^^^ mstatus) &&& (MSTATUS_MXR ||| MSTATUS_MPP |||
         MSTATUS_MPRV ||| MSTATUS_SUM) ≠ 0 then
      tlb_flush env1
    else env1
  let mask2 : Nat :=
    if PRIV_VERSION_1_10_0 ≤ env.priv_ver then
      MSTATUS_SIE ||| MSTATUS_SPIE ||| MSTATUS_MIE ||| MSTATUS_MPIE |||
      MSTATUS_SPP ||| MSTATUS_FS ||| MSTATUS_MPRV ||| MSTATUS_SUM |||
      MSTATUS_MPP ||| MSTATUS_MXR
    else mask1
  let mask3 : Nat :=
    if mpp = PRV_H ∨ (¬ riscv_has_ext env RVS ∧ mpp = PRV_S) ∨
       (¬ riscv_has_ext env RVU ∧ mpp = PRV_U) then
      mask2 &&& wnot cfg MSTATUS_MPP
    else mask2
  let ms1 := (mstatus &&& wnot cfg mask3) ||| (val &&& mask3)
  let ms2 := if ms1 &&& MSTATUS_FS ≠ 0 then ms1 ||| MSTATUS_FS else ms1
  let dirty : Nat :=
    (if ms2 &&& MSTATUS_FS = MSTATUS_FS then 1 else 0) |||
    (if ms2 &&& MSTATUS_XS = MSTATUS_XS then 1 else 0)
  let ms3 := set_field cfg ms2 (MSTATUS_SD cfg) dirty
  some { env2 with mstatus := ms3 }

/-- read_misa of csr.c. -/
def read_misa (cfg : Config) (env : CPURISCVState) (csrno : Nat) :
    Option Nat :=
  some env.misa

/-- read_medeleg of csr.c. -/
def read_medeleg (cfg : Config) (env : CPURISCVState) (csrno : Nat) :
    Option Nat :=
  some env.medeleg

/-- write_medeleg of csr.c. -/
def write_medeleg (cfg : Config) (env : CPURISCVState) (csrno val : Nat) :
    Option CPURISCVState :=
  some { env with medeleg := (env.medeleg &&& wnot cfg delegable_excps) |||
                             (val &&& delegable_excps) }

/-- read_mideleg of csr.c. -/
def read_mideleg (cfg : Config) (env : CPURISCVState) (csrno : Nat) :
    Option Nat :=
  some env.mideleg

/-- write_mideleg of csr.c. -/
def write_mideleg (cfg : Config) (env : CPURISCVState) (csrno val : Nat) :
    Option CPURISCVState :=
  some { env with mideleg := (env.mideleg &&& wnot cfg delegable_ints) |||
                             (val &&& delegable_ints) }

/-- read_mie of csr.c. -/
def read_mie (cfg : Config) (env : CPURISCVState) (csrno : Nat) :
    Option Nat :=
  some env.mie

/-- write_mie of csr.c. -/
def write_mie (cfg : Config) (env : CPURISCVState) (csrno val : Nat) :
    Option CPURISCVState :=
  some { env with mie := (env.mie &&& wnot cfg all_ints) |||
                         (val &&& all_ints) }

/-- read_mtvec of csr.c. -/
def read_mtvec (cfg : Config) (env : CPURISCVState) (csrno : Nat) :
    Option Nat :=
  some env.mtvec

/-- write_mtvec of csr.c: vectored trap mode is unsupported, a value
with non-zero low bits is silently dropped. -/
def write_mtvec (cfg : Config) (env : CPURISCVState) (csrno val : Nat) :
    Option CPURISCVState :=
  if val &&& 3 = 0 then some { env with mtvec := (val >>> 2) <<< 2 }
  else some env

/-- read_mcounteren of csr.c (priv spec 1.10 only). -/
def read_mcounteren (cfg : Config) (env : CPURISCVState) (csrno : Nat) :
    Option Nat :=
  if env.priv_ver < PRIV_VERSION_1_10_0 then none
  else some env.mcounteren

/-- write_mcounteren of csr.c (priv spec 1.10 only). -/
def write_mcounteren (cfg : Config) (env : CPURISCVState) (csrno val : Nat) :
    Option CPURISCVState :=
  if env.priv_ver < PRIV_VERSION_1_10_0 then none
  else some { env with mcounteren := val }

/-- read_mscounteren of csr.c (priv spec 1.9.1 only; aliases
mcounteren). -/
def read_mscounteren (cfg : Config) (env : CPURISCVState) (csrno : Nat) :
    Option Nat :=
  if PRIV_VERSION_1_09_1 < env.priv_ver then none
  else some env.mcounteren

/-- write_mscounteren of csr.c (priv spec 1.9.1 only; aliases
mcounteren). -/
def write_mscounteren (cfg : Config) (env : CPURISCVState) (csrno val : Nat) :
    Option CPURISCVState :=
  if PRIV_VERSION_1_09_1 < env.priv_ver then none
  else some { env with mcounteren := val }

/-- read_mucounteren of csr.c (priv spec 1.9.1 only; aliases
scounteren). -/
def read_mucounteren (cfg : Config) (env : CPURISCVState) (csrno : Nat) :
    Option Nat :=
  if PRIV_VERSION_1_09_1 < env.priv_ver then none
  else some env.scounteren

/-- write_mucounteren of csr.c (priv spec 1.9.1 only; aliases
scounteren). -/
def write_mucounteren (cfg : Config) (env : CPURISCVState) (csrno val : Nat) :
    Option CPURISCVState :=
  if PRIV_VERSION_1_09_1 < env.priv_ver then none
  else some { env with scounteren := val }

/-- read_mscratch of csr.c. -/
def read_mscratch (cfg : Config) (env : CPURISCVState) (csrno : Nat) :
    Option Nat :=
  some env.mscratch

/-- write_mscratch of csr.c. -/
def write_mscratch (cfg : Config) (env : CPURISCVState) (csrno val : Nat) :
    Option CPURISCVState :=
  some { env with mscratch := val }

/-- read_mepc of csr.c. -/
def read_mepc (cfg : Config) (env : CPURISCVState) (csrno : Nat) :
    Option Nat :=
  some env.mepc

/-- write_mepc of csr.c. -/
def write_mepc (cfg : Config) (env : CPURISCVState) (csrno val : Nat) :
    Option CPURISCVState :=
  some { env with mepc := val }

/-- read_mcause of csr.c. -/
def read_mcause (cfg : Config) (env : CPURISCVState) (csrno : Nat) :
    Option Nat :=
  some env.mcause

/-- write_mcause of csr.c. -/
def write_mcause (cfg : Config) (env : CPURISCVState) (csrno val : Nat) :
    Option CPURISCVState :=
  some { env with mcause := val }

/-- read_mbadaddr of csr.c. -/
def read_mbadaddr (cfg : Config) (env : CPURISCVState) (csrno : Nat) :
    Option Nat :=
  some env.mbadaddr

/-- write_mbadaddr of csr.c. -/
def write_mbadaddr (cfg : Config) (env : CPURISCVState) (csrno val : Nat) :
    Option CPURISCVState :=
  some { env with mbadaddr := val }

/-- rmw_mip of csr.c: the write mask is intersected with
delegable_ints and then stripped of SEIP; a non-empty effective mask
goes through the locked riscv_set_local_interrupt, an empty one is an
atomic load (into a uint32_t) only.  The returned value is the prior
mip. -/
def rmw_mip (cfg : Config) (env : CPURISCVState)
    (csrno new_value write_mask : Nat) : Nat × CPURISCVState :=
  let mask := (write_mask &&& delegable_ints) &&& wnot cfg MIP_SEIP
  if mask ≠ 0 then
    riscv_set_local_interrupt cfg env mask (new_value &&& mask)
  else
    (env.mip % 2 ^ 32, env)

/-- read_sstatus of csr.c: mstatus through the version-dependent
sstatus mask. -/
def read_sstatus (cfg : Config) (env : CPURISCVState) (csrno : Nat) :
    Option Nat :=
  let mask := if PRIV_VERSION_1_10_0 ≤ env.priv_ver then
      sstatus_v1_10_mask cfg else sstatus_v1_9_mask cfg
  some (env.mstatus &&& mask)

/-- write_sstatus of csr.c: merge through the version-dependent mask
and delegate to write_mstatus. -/
def write_sstatus (cfg : Config) (env : CPURISCVState) (csrno val : Nat) :
    Option CPURISCVState :=
  let mask := if PRIV_VERSION_1_10_0 ≤ env.priv_ver then
      sstatus_v1_10_mask cfg else sstatus_v1_9_mask cfg
  let newval := (env.mstatus &&& wnot cfg mask) ||| (val &&& mask)
  write_mstatus cfg env CSR_MSTATUS newval

/-- read_sie of csr.c. -/
def read_sie (cfg : Config) (env : CPURISCVState) (csrno : Nat) :
    Option Nat :=
  some (env.mie &&& env.mideleg)

/-- write_sie of csr.c. -/
def write_sie (cfg : Config) (env : CPURISCVState) (csrno val : Nat) :
    Option CPURISCVState :=
  let newval := (env.mie &&& wnot cfg env.mideleg) ||| (val &&& env.mideleg)
  write_mie cfg env CSR_MIE newval

/-- read_stvec of csr.c. -/
def read_stvec (cfg : Config) (env : CPURISCVState) (csrno : Nat) :
    Option Nat :=
  some env.stvec

/-- write_stvec of csr.c. -/
def write_stvec (cfg : Config) (env : CPURISCVState) (csrno val : Nat) :
    Option CPURISCVState :=
  if val &&& 3 = 0 then some { env with stvec := (val >>> 2) <<< 2 }
  else some env

/-- read_scounteren of csr.c (priv spec 1.10 only). -/
def read_scounteren (cfg : Config) (env : CPURISCVState) (csrno : Nat) :
    Option Nat :=
  if env.priv_ver < PRIV_VERSION_1_10_0 then none
  else some env.scounteren

/-- write_scounteren of csr.c (priv spec 1.10 only). -/
def write_scounteren (cfg : Config) (env : CPURISCVState) (csrno val : Nat) :
    Option CPURISCVState :=
  if env.priv_ver < PRIV_VERSION_1_10_0 then none
  else some { env with scounteren := val }

/-- read_sscratch of csr.c. -/
def read_sscratch (cfg : Config) (env : CPURISCVState) (csrno : Nat) :
    Option Nat :=
  some env.sscratch

/-- write_sscratch of csr.c. -/
def write_sscratch (cfg : Config) (env : CPURISCVState) (csrno val : Nat) :
    Option CPURISCVState :=
  some { env with sscratch := val }

/-- read_sepc of csr.c. -/
def read_sepc (cfg : Config) (env : CPURISCVState) (csrno : Nat) :
    Option Nat :=
  some env.sepc

/-- write_sepc of csr.c. -/
def write_sepc (cfg : Config) (env : CPURISCVState) (csrno val : Nat) :
    Option CPURISCVState :=
  some { env with sepc := val }

/-- read_scause of csr.c. -/
def read_scause (cfg : Config) (env : CPURISCVState) (csrno : Nat) :
    Option Nat :=
  some env.scause

/-- write_scause of csr.c. -/
def write_scause (cfg : Config) (env : CPURISCVState) (csrno val : Nat) :
    Option CPURISCVState :=
  some { env with scause := val }

/-- read_sbadaddr of csr.c. -/
def read_sbadaddr (cfg : Config) (env : CPURISCVState) (csrno : Nat) :
    Option Nat :=
  some env.sbadaddr

/-- write_sbadaddr of csr.c. -/
def write_sbadaddr (cfg : Config) (env : CPURISCVState) (csrno val : Nat) :
    Option CPURISCVState :=
  some { env with sbadaddr := val }

/-- rmw_sip of csr.c: delegates to rmw_mip with the mask intersected
with mideleg (the source passes CSR_MSTATUS as the csr number; rmw_mip
ignores it). -/
def rmw_sip (cfg : Config) (env : CPURISCVState)
    (csrno new_value write_mask : Nat) : Nat × CPURISCVState :=
  rmw_mip cfg env CSR_MSTATUS new_value (write_mask &&& env.mideleg)

/-- read_satp of csr.c. -/
def read_satp (cfg : Config) (env : CPURISCVState) (csrno : Nat) :
    Option Nat :=
  if ¬ cfg.mmu then some 0
  else if PRIV_VERSION_1_10_0 ≤ env.priv_ver then some env.satp
  else some env.sptbr

/-- write_satp of csr.c: no-op without an MMU; under 1.9.1 any change
flushes and stores the PPN-truncated value into sptbr; under 1.10 the
MODE is validated against the per-XLEN table, an invalid value is
silently dropped, and a change of MODE/ASID/PPN flushes before the
store. -/
def write_satp (cfg : Config) (env : CPURISCVState) (csrno val : Nat) :
    Option CPURISCVState :=
  if ¬ cfg.mmu then some env
  else
    let env1 :=
      if env.priv_ver ≤ PRIV_VERSION_1_09_1 ∧ (val ^^^ env.sptbr) ≠ 0 then
        { tlb_flush env with
          sptbr := val &&&
            ((1 <<< (TARGET_PHYS_ADDR_SPACE_BITS cfg - PGSHIFT)) - 1) }
      else env
    let env2 :=
      if PRIV_VERSION_1_10_0 ≤ env1.priv_ver ∧
         validate_vm cfg env1 (get_field cfg val (SATP_MODE cfg)) ∧
         (val ^^^ env1.satp) &&&
           (SATP_MODE cfg ||| SATP_ASID cfg ||| SATP_PPN cfg) ≠ 0 then
        { tlb_flush env1 with satp := val }
      else env1
    some env2

/-- read_pmpcfg of csr.c. -/
def read_pmpcfg (cfg : Config) (env : CPURISCVState) (csrno : Nat) :
    Option Nat :=
  some (pmpcfg_csr_read env (csrno - CSR_PMPCFG0))

/-- write_pmpcfg of csr.c. -/
def write_pmpcfg (cfg : Config) (env : CPURISCVState) (csrno val : Nat) :
    Option CPURISCVState :=
  some (pmpcfg_csr_write env (csrno - CSR_PMPCFG0) val)

/-- read_pmpaddr of csr.c. -/
def read_pmpaddr (cfg : Config) (env : CPURISCVState) (csrno : Nat) :
    Option Nat :=
  some (pmpaddr_csr_read env (csrno - CSR_PMPADDR0))

/-- write_pmpaddr of csr.c. -/
def write_pmpaddr (cfg : Config) (env : CPURISCVState) (csrno val : Nat) :
    Option CPURISCVState :=
  some (pmpaddr_csr_write env (csrno - CSR_PMPADDR0) val)

/-- One entry of the accessor table: optional read, optional write,
optional combined read-modify-write accessor. -/
structure CsrOps where
  read : Option (CPURISCVState → Nat → Option Nat)
  write : Option (CPURISCVState → Nat → Nat → Option CPURISCVState)
  op : Option (CPURISCVState → Nat → Nat → Nat → Nat × CPURISCVState)

/-- Tags naming the accessor-table entries of csr.c (one tag per
designated-initializer group). -/
inductive CsrClass where
  | fflagsE | frmE | fcsrE
  | cycleE | cyclehE
  | mcycleE | mcyclehE
  | zeroIdE | mhartidE
  | mstatusE | misaE | midelegE | medelegE | mieE | mtvecE
  | mcounterenE | mucounterenE | mscounterenE
  | mscratchE | mepcE | mcauseE | mbadaddrE | mipE
  | sstatusE | sieE | stvecE | scounterenE
  | sscratchE | sepcE | scauseE | sbadaddrE | sipE
  | satpE
  | pmpcfgE | pmpaddrE
  | hpmcounterE | mhpmcounterE | mhpmeventE
  | hpmcounterhE | mhpmcounterhE
  | unmapped
deriving Repr, DecidableEq

/-- Which accessor-table entry a CSR number selects, following the
designated initializers of csr.c.  The two C range initializers
[CSR_PMPCFG0 ... CSR_PMPADDR9] and [CSR_PMPADDR0 ... CSR_PMPADDR15]
overlap; the later pmpaddr entry wins on 0x3B0..0x3BF, so the net
pmpcfg range is 0x3A0..0x3AF.  The high counter halves exist only on
TARGET_RISCV32.  Unlisted numbers are unmapped ("illegal CSR"). -/
def csrClass (cfg : Config) (c : Nat) : CsrClass :=
  if c = CSR_FFLAGS then .fflagsE
  else if c = CSR_FRM then .frmE
  else if c = CSR_FCSR then .fcsrE
  else if c = CSR_CYCLE ∨ c = CSR_INSTRET then .cycleE
  else if ¬ cfg.rv64 ∧ (c = CSR_CYCLEH ∨ c = CSR_INSTRETH) then .cyclehE
  else if c = CSR_MCYCLE ∨ c = CSR_MINSTRET then .mcycleE
  else if ¬ cfg.rv64 ∧ (c = CSR_MCYCLEH ∨ c = CSR_MINSTRETH) then .mcyclehE
  else if c = CSR_MVENDORID ∨ c = CSR_MARCHID ∨ c = CSR_MIMPID then .zeroIdE
  else if c = CSR_MHARTID then .mhartidE
  else if c = CSR_MSTATUS then .mstatusE
  else if c = CSR_MISA then .misaE
  else if c = CSR_MIDELEG then .midelegE
  else if c = CSR_MEDELEG then .medelegE
  else if c = CSR_MIE then .mieE
  else if c = CSR_MTVEC then .mtvecE
  else if c = CSR_MCOUNTEREN then .mcounterenE
  else if c = CSR_MUCOUNTEREN then .mucounterenE
  else if c = CSR_MSCOUNTEREN then .mscounterenE
  else if c = CSR_MSCRATCH then .mscratchE
  else if c = CSR_MEPC then .mepcE
  else if c = CSR_MCAUSE then .mcauseE
  else if c = CSR_MBADADDR then .mbadaddrE
  else if c = CSR_MIP then .mipE
  else if c = CSR_SSTATUS then .sstatusE
  else if c = CSR_SIE then .sieE
  else if c = CSR_STVEC then .stvecE
  else if c = CSR_SCOUNTEREN then .scounterenE
  else if c = CSR_SSCRATCH then .sscratchE
  else if c = CSR_SEPC then .sepcE
  else if c = CSR_SCAUSE then .scauseE
  else if c = CSR_SBADADDR then .sbadaddrE
  else if c = CSR_SIP then .sipE
  else if c = CSR_SATP then .satpE
  else if CSR_PMPCFG0 ≤ c ∧ c ≤ 0x3AF then .pmpcfgE
  else if CSR_PMPADDR0 ≤ c ∧ c ≤ CSR_PMPADDR15 then .pmpaddrE
  else if CSR_HPMCOUNTER3 ≤ c ∧ c ≤ CSR_HPMCOUNTER31 then .hpmcounterE
  else if CSR_MHPMCOUNTER3 ≤ c ∧ c ≤ CSR_MHPMCOUNTER31 then .mhpmcounterE
  else if CSR_MHPMEVENT3 ≤ c ∧ c ≤ CSR_MHPMEVENT31 then .mhpmeventE
  else if ¬ cfg.rv64 ∧ CSR_HPMCOUNTER3H ≤ c ∧ c ≤ CSR_HPMCOUNTER31H then
    .hpmcounterhE
  else if ¬ cfg.rv64 ∧ CSR_MHPMCOUNTER3H ≤ c ∧ c ≤ CSR_MHPMCOUNTER31H then
    .mhpmcounterhE
  else .unmapped

/-- The csr_ops accessor table of csr.c (system-emulation entries),
indexed through csrClass. -/
def csr_ops (cfg : Config) (c : Nat) : CsrOps :=
  match csrClass cfg c with
  | .fflagsE => ⟨some (read_fflags cfg), some (write_fflags cfg), none⟩
  | .frmE => ⟨some (read_frm cfg), some (write_frm cfg), none⟩
  | .fcsrE => ⟨some (read_fcsr cfg), some (write_fcsr cfg), none⟩
  | .cycleE => ⟨some (read_instret cfg), none, none⟩
  | .cyclehE => ⟨some (read_instreth cfg), none, none⟩
  | .mcycleE => ⟨some (read_instret cfg), none, none⟩
  | .mcyclehE => ⟨some (read_instreth cfg), none, none⟩
  | .zeroIdE => ⟨some (read_zero cfg), none, none⟩
  | .mhartidE => ⟨some (read_mhartid cfg), none, none⟩
  | .mstatusE => ⟨some (read_mstatus cfg), some (write_mstatus cfg), none⟩
  | .misaE => ⟨some (read_misa cfg), none, none⟩
  | .midelegE => ⟨some (read_mideleg cfg), some (write_mideleg cfg), none⟩
  | .medelegE => ⟨some (read_medeleg cfg), some (write_medeleg cfg), none⟩
  | .mieE => ⟨some (read_mie cfg), some (write_mie cfg), none⟩
  | .mtvecE => ⟨some (read_mtvec cfg), some (write_mtvec cfg), none⟩
  | .mcounterenE =>
    ⟨some (read_mcounteren cfg), some (write_mcounteren cfg), none⟩
  | .mucounterenE =>
    ⟨some (read_mucounteren cfg), some (write_mucounteren cfg), none⟩
  | .mscounterenE =>
    ⟨some (read_mscounteren cfg), some (write_mscounteren cfg), none⟩
  | .mscratchE => ⟨some (read_mscratch cfg), some (write_mscratch cfg), none⟩
  | .mepcE => ⟨some (read_mepc cfg), some (write_mepc cfg), none⟩
  | .mcauseE => ⟨some (read_mcause cfg), some (write_mcause cfg), none⟩
  | .mbadaddrE => ⟨some (read_mbadaddr cfg), some (write_mbadaddr cfg), none⟩
  | .mipE => ⟨none, none, some (rmw_mip cfg)⟩
  | .sstatusE => ⟨some (read_sstatus cfg), some (write_sstatus cfg), none⟩
  | .sieE => ⟨some (read_sie cfg), some (write_sie cfg), none⟩
  | .stvecE => ⟨some (read_stvec cfg), some (write_stvec cfg), none⟩
  | .scounterenE =>
    ⟨some (read_scounteren cfg), some (write_scounteren cfg), none⟩
  | .sscratchE => ⟨some (read_sscratch cfg), some (write_sscratch cfg), none⟩
  | .sepcE => ⟨some (read_sepc cfg), some (write_sepc cfg), none⟩
  | .scauseE => ⟨some (read_scause cfg), some (write_scause cfg), none⟩
  | .sbadaddrE => ⟨some (read_sbadaddr cfg), some (write_sbadaddr cfg), none⟩
  | .sipE => ⟨none, none, some (rmw_sip cfg)⟩
  | .satpE => ⟨some (read_satp cfg), some (write_satp cfg), none⟩
  | .pmpcfgE => ⟨some (read_pmpcfg cfg), some (write_pmpcfg cfg), none⟩
  | .pmpaddrE => ⟨some (read_pmpaddr cfg), some (write_pmpaddr cfg), none⟩
  | .hpmcounterE => ⟨some (read_zero_counter cfg), none, none⟩
  | .mhpmcounterE => ⟨some (read_zero cfg), none, none⟩
  | .mhpmeventE => ⟨some (read_zero cfg), none, none⟩
  | .hpmcounterhE => ⟨some (read_zero_counter cfg), none, none⟩
  | .mhpmcounterhE => ⟨some (read_zero cfg), none, none⟩
  | .unmapped => ⟨none, none, none⟩

/-- The accessor-dispatch part of riscv_csrrw, after the privilege and
read-only gate: run the combined accessor if one exists; otherwise
fail on a missing read accessor, read the old value (propagating
failure), merge and write when the mask is non-zero (propagating
failure, dropping the write when no write accessor exists), and return
the old value.  The result is (status, returned value, new state);
on status -1 the returned value slot is unspecified in C and is 0
here. -/
def csrDispatch (cfg : Config) (env : CPURISCVState)
    (csrno new_value write_mask : Nat) : Int × Nat × CPURISCVState :=
  match (csr_ops cfg csrno).op with
  | some f =>
    let r := f env csrno new_value write_mask
    (0, r.1, r.2)
  | none =>
    match (csr_ops cfg csrno).read with
    | none => (-1, 0, env)
    | some rd =>
      match rd env csrno with
      | none => (-1, 0, env)
      | some old_value =>
        if write_mask ≠ 0 then
          let merged := (old_value &&& wnot cfg write_mask) |||
                        (new_value &&& write_mask)
          match (csr_ops cfg csrno).write with
          | some wr =>
            match wr env csrno merged with
            | none => (-1, 0, env)
            | some env2 => (0, old_value, env2)
          | none => (0, old_value, env)
        else (0, old_value, env)

/-- riscv_csrrw of csr.c: truncate the operands to target_ulong,
check the privilege encoded in csrno[9:8] and the read-only encoding
csrno[11:10] == 3, then dispatch to the accessor table. -/
def riscv_csrrw (cfg : Config) (env : CPURISCVState)
    (csrno new_value write_mask : Nat) : Int × Nat × CPURISCVState :=
  let nv := new_value &&& wones cfg
  let wm := write_mask &&& wones cfg
  let csr_priv := get_field cfg csrno 0x300
  let read_only := get_field cfg csrno 0xC00 = 3
  if (wm ≠ 0 ∧ read_only) ∨ env.priv < csr_priv then (-1, 0, env)
  else csrDispatch cfg env csrno nv wm

/-- A convenient RV64 system configuration for concrete runs. -/
def rv64sys : Config := ⟨true, true, false⟩

/-- A concrete reset-like hart: priv spec 1.10, S and U implemented,
machine mode, all mutable architectural state zero. -/
def hart0 : CPURISCVState :=
  ⟨0, 0, 0, 0, PRIV_VERSION_1_10_0, RVS ||| RVU, PRV_M, 0, 0, 0, 0, 0, 0, 0,
   0, 0, 0, 0, 0, 0, 0, 0, 0, 0, 0, 0, 0,
   List.replicate 16 0, List.replicate 16 0, 0, 0, 0, 0⟩

/-- The current value a CSR number shows: the combined accessor's
pure-read result when one exists, the read accessor's value
otherwise. -/
def csrReadValue (cfg : Config) (env : CPURISCVState) (c : Nat) :
    Option Nat :=
  match (csr_ops cfg c).op with
  | some f => some (f env c 0 0).1
  | none =>
    match (csr_ops cfg c).read with
    | some rd => rd env c
    | none => none

/-- The mstatus value write_mstatus stores, as a function of the old
value, the written value and the effective writable mask: merge, snap
FS to Dirty when non-Off, recompute SD. -/
def mstatus_merge_final (cfg : Config) (m v mask : Nat) : Nat :=
  let ms1 := (m &&& wnot cfg mask) ||| (v &&& mask)
  let ms2 := if ms1 &&& MSTATUS_FS ≠ 0 then ms1 ||| MSTATUS_FS else ms1
  let dirty : Nat :=
    (if ms2 &&& MSTATUS_FS = MSTATUS_FS then 1 else 0) |||
    (if ms2 &&& MSTATUS_XS = MSTATUS_XS then 1 else 0)
  set_field cfg ms2 (MSTATUS_SD cfg) dirty

/-- The mstatus shape invariant maintained by the CSR subsystem:
XS is always clear (no writer can set it), FS is Off or Dirty, and SD
mirrors FS == Dirty. -/
def mstatusInv (cfg : Config) (ms : Nat) : Prop :=
  ms &&& MSTATUS_XS = 0 ∧
  (ms &&& MSTATUS_FS = 0 ∨ ms &&& MSTATUS_FS = MSTATUS_FS) ∧
  ms &&& MSTATUS_SD cfg =
    (if ms &&& MSTATUS_FS = MSTATUS_FS then MSTATUS_SD cfg else 0)

/-- The version-dependent sstatus view mask used by read_sstatus and
write_sstatus. -/
def sstatus_mask (cfg : Config) (env : CPURISCVState) : Nat :=
  if PRIV_VERSION_1_10_0 ≤ env.priv_ver then sstatus_v1_10_mask cfg
  else sstatus_v1_9_mask cfg

/-- The effective writable mask write_mstatus uses: the
version-dependent base mask, VM included under 1.9.1 only when the
proposed mode validates, and MPP dropped when the incoming MPP value
selects an unsupported mode. -/
def mstatus_wmask (cfg : Config) (env : CPURISCVState) (val : Nat) : Nat :=
  let mpp := get_field cfg val MSTATUS_MPP
  let mask1 : Nat :=
    if env.priv_ver ≤ PRIV_VERSION_1_09_1 then
      MSTATUS_SIE ||| MSTATUS_SPIE ||| MSTATUS_MIE ||| MSTATUS_MPIE |||
      MSTATUS_SPP ||| MSTATUS_FS ||| MSTATUS_MPRV ||| MSTATUS_SUM |||
      MSTATUS_MPP ||| MSTATUS_MXR |||
      (if validate_vm cfg env (get_field cfg val MSTATUS_VM) then
        MSTATUS_VM else 0)
    else 0
  let mask2 : Nat :=
    if PRIV_VERSION_1_10_0 ≤ env.priv_ver then
      MSTATUS_SIE ||| MSTATUS_SPIE ||| MSTATUS_MIE ||| MSTATUS_MPIE |||
      MSTATUS_SPP ||| MSTATUS_FS ||| MSTATUS_MPRV ||| MSTATUS_SUM |||
      MSTATUS_MPP ||| MSTATUS_MXR
    else mask1
  if mpp = PRV_H ∨ (¬ riscv_has_ext env RVS ∧ mpp = PRV_S) ∨
     (¬ riscv_has_ext env RVU ∧ mpp = PRV_U) then
    mask2 &&& wnot cfg MSTATUS_MPP
  else mask2

/-- A write accessor preserving the mstatus shape invariant. -/
def WPres (cfg : Config)
    (w : CPURISCVState → Nat → Nat → Option CPURISCVState) : Prop :=
  ∀ env c v env2, mstatusInv cfg env.mstatus → w env c v = some env2 →
    mstatusInv cfg env2.mstatus

/-- One CSR operation, as a step relation on hart states. -/
def CsrStep (cfg : Config) (e e2 : CPURISCVState) : Prop :=
  ∃ c n m, (riscv_csrrw cfg e c n m).2.2 = e2

/-- Reachability by a sequence of CSR operations. -/
def CsrReachable (cfg : Config) :
    CPURISCVState → CPURISCVState → Prop :=
  Relation.ReflTransGen (CsrStep cfg)

/-! Classification of the accessor table, and gate-level lemmas. -/
set_option maxHeartbeats 2000000

/-! Bitwise toolkit: pointwise (testBit) lemmas about the word
operations used by the accessors. -/
/-- A bit of the truncating complement: set iff inside the word and
clear in the operand. -/
theorem testBit_wnot (cfg : Config) (x i : Nat) :
    (wnot cfg x).testBit i = ((wones cfg).testBit i && !(x.testBit i)) := by
  unfold wnot
  simp only [Nat.testBit_xor, Nat.testBit_and]
  cases hw : (wones cfg).testBit i <;> cases hx : x.testBit i <;> rfl

/-- Conjunction distributes over disjunction on the right. -/
theorem land_lor_right (x y m : Nat) :
    (x ||| y) &&& m = (x &&& m) ||| (y &&& m) := by
  apply Nat.eq_of_testBit_eq
  intro i
  simp only [Nat.testBit_and, Nat.testBit_or]
  cases x.testBit i <;> cases y.testBit i <;> cases m.testBit i <;> rfl

/-- Conjunction with a mask disjoint from one disjunct cancels it. -/
theorem lor_land_cancel (x F m : Nat) (h : F &&& m = 0) :
    (x ||| F) &&& m = x &&& m := by
  apply Nat.eq_of_testBit_eq
  intro i
  have hi := congrArg (fun t => t.testBit i) h
  simp only [Nat.testBit_and, Nat.zero_testBit] at hi
  simp only [Nat.testBit_and, Nat.testBit_or]
  cases hx : x.testBit i <;> cases hF : F.testBit i <;>
    cases hm : m.testBit i <;> simp_all

/-- A disjunct survives conjunction with itself. -/
theorem lor_land_self (x F : Nat) : (x ||| F) &&& F = F := by
  apply Nat.eq_of_testBit_eq
  intro i
  simp only [Nat.testBit_and, Nat.testBit_or]
  cases x.testBit i <;> cases F.testBit i <;> rfl

/-- Disjunction with a submask is the identity. -/
theorem lor_eq_self_of_subset (x F : Nat) (h : x &&& F = F) :
    x ||| F = x := by
  apply Nat.eq_of_testBit_eq
  intro i
  have hi := congrArg (fun t => t.testBit i) h
  simp only [Nat.testBit_and] at hi
  simp only [Nat.testBit_or]
  cases hx : x.testBit i <;> cases hF : F.testBit i <;> simp_all

/-- Swapping the outer two operands of a double conjunction. -/
theorem land_right_comm (a b c : Nat) : a &&& b &&& c = a &&& c &&& b := by
  apply Nat.eq_of_testBit_eq
  intro i
  simp only [Nat.testBit_and]
  cases a.testBit i <;> cases b.testBit i <;> cases c.testBit i <;> rfl

/-- Conjunction by a mask disjoint from the inner mask yields zero. -/
theorem land_land_of_disjoint (x a m : Nat) (h : a &&& m = 0) :
    (x &&& a) &&& m = 0 := by
  apply Nat.eq_of_testBit_eq
  intro i
  have hi := congrArg (fun t => t.testBit i) h
  simp only [Nat.testBit_and, Nat.zero_testBit] at hi ⊢
  cases hx : x.testBit i <;> cases ha : a.testBit i <;>
    cases hm : m.testBit i <;> simp_all

/-- Clearing bits under a complement then selecting them yields
zero. -/
theorem land_wnot_land_self (cfg : Config) (x a : Nat) :
    (x &&& wnot cfg a) &&& a = 0 := by
  apply Nat.eq_of_testBit_eq
  intro i
  simp only [Nat.testBit_and, testBit_wnot, Nat.zero_testBit]
  cases x.testBit i <;> cases (wones cfg).testBit i <;>
    cases a.testBit i <;> rfl

/-- Clearing bits disjoint from an in-word mask does not affect the
view through that mask. -/
theorem land_wnot_outside (cfg : Config) (x a m : Nat) (ha : a &&& m = 0)
    (hm : m &&& wones cfg = m) : (x &&& wnot cfg a) &&& m = x &&& m := by
  apply Nat.eq_of_testBit_eq
  intro i
  have hia := congrArg (fun t => t.testBit i) ha
  have him := congrArg (fun t => t.testBit i) hm
  simp only [Nat.testBit_and, Nat.zero_testBit] at hia him
  simp only [Nat.testBit_and, testBit_wnot]
  cases hx : x.testBit i <;> cases h1 : a.testBit i <;>
    cases h2 : m.testBit i <;> cases h3 : (wones cfg).testBit i <;>
    simp_all

/-- A read-modify-write merge agrees with the old word outside the
write mask, provided the new word already did. -/
theorem merge_wnot_outside (cfg : Config) (M N mask s : Nat)
    (hN : N &&& wnot cfg s = M &&& wnot cfg s) :
    ((M &&& wnot cfg mask) ||| (N &&& mask)) &&& wnot cfg s =
      M &&& wnot cfg s := by
  apply Nat.eq_of_testBit_eq
  intro i
  have hi := congrArg (fun t => t.testBit i) hN
  simp only [Nat.testBit_and, testBit_wnot] at hi
  simp only [Nat.testBit_and, Nat.testBit_or, testBit_wnot]
  cases hM : M.testBit i <;> cases hn : N.testBit i <;>
    cases h1 : mask.testBit i <;> cases h2 : s.testBit i <;>
    cases h3 : (wones cfg).testBit i <;> simp_all

/-- A read-modify-write merge agrees with the old word on a field
disjoint from the write mask (field within the word). -/
theorem merge_land_of_disjoint (cfg : Config) (M v mask F : Nat)
    (h : mask &&& F = 0) (hF : F &&& wones cfg = F) :
    ((M &&& wnot cfg mask) ||| (v &&& mask)) &&& F = M &&& F := by
  apply Nat.eq_of_testBit_eq
  intro i
  have h1 := congrArg (fun t => t.testBit i) h
  have h2 := congrArg (fun t => t.testBit i) hF
  simp only [Nat.testBit_and, Nat.zero_testBit] at h1 h2
  simp only [Nat.testBit_and, Nat.testBit_or, testBit_wnot]
  cases M.testBit i <;> cases v.testBit i <;> cases hm : mask.testBit i <;>
    cases hf : F.testBit i <;> cases hw : (wones cfg).testBit i <;>
    simp_all

/-- A read-modify-write merge agrees with the new word on a field
inside the write mask. -/
theorem merge_land_of_subset (cfg : Config) (M v mask F : Nat)
    (h : mask &&& F = F) :
    ((M &&& wnot cfg mask) ||| (v &&& mask)) &&& F = v &&& F := by
  apply Nat.eq_of_testBit_eq
  intro i
  have h1 := congrArg (fun t => t.testBit i) h
  simp only [Nat.testBit_and] at h1
  simp only [Nat.testBit_and, Nat.testBit_or, testBit_wnot]
  cases M.testBit i <;> cases v.testBit i <;> cases hm : mask.testBit i <;>
    cases hf : F.testBit i <;> cases hw : (wones cfg).testBit i <;>
    simp_all

/-- The truncating complement lies within the word. -/
theorem wnot_land_wones (cfg : Config) (a : Nat) :
    wnot cfg a &&& wones cfg = wnot cfg a := by
  apply Nat.eq_of_testBit_eq
  intro i
  simp only [Nat.testBit_and, testBit_wnot]
  cases (wones cfg).testBit i <;> cases a.testBit i <;> rfl

/-- Truncation to the word width is reduction mod 2 ^ wbits. -/
theorem land_wones_eq_mod (cfg : Config) (x : Nat) :
    x &&& wones cfg = x % 2 ^ wbits cfg := by
  apply Nat.eq_of_testBit_eq
  intro i
  simp only [Nat.testBit_and, Nat.testBit_mod_two_pow, wones,
    Nat.testBit_two_pow_sub_one]
  cases x.testBit i <;> cases h : decide (i < wbits cfg) <;> rfl

/-- Selecting twice through the same mask selects once. -/
theorem land_land_self (x a : Nat) : (x &&& a) &&& a = x &&& a := by
  apply Nat.eq_of_testBit_eq
  intro i
  simp only [Nat.testBit_and]
  cases x.testBit i <;> cases a.testBit i <;> rfl

/-- A mask and its truncating complement are disjoint. -/
theorem land_wnot_self (cfg : Config) (a : Nat) : a &&& wnot cfg a = 0 := by
  apply Nat.eq_of_testBit_eq
  intro i
  simp only [Nat.testBit_and, testBit_wnot, Nat.zero_testBit]
  cases a.testBit i <;> cases (wones cfg).testBit i <;> rfl

/-- A truncating complement and its mask are disjoint. -/
theorem wnot_land_self (cfg : Config) (a : Nat) : wnot cfg a &&& a = 0 := by
  apply Nat.eq_of_testBit_eq
  intro i
  simp only [Nat.testBit_and, testBit_wnot, Nat.zero_testBit]
  cases a.testBit i <;> cases (wones cfg).testBit i <;> rfl

/-- Conjunction with an all-ones low mask is reduction mod the power
of two. -/
theorem land_two_pow_sub_one (x n : Nat) : x &&& (2 ^ n - 1) = x % 2 ^ n := by
  apply Nat.eq_of_testBit_eq
  intro i
  simp only [Nat.testBit_and, Nat.testBit_mod_two_pow,
    Nat.testBit_two_pow_sub_one]
  cases x.testBit i <;> cases h : decide (i < n) <;> rfl

/-- The FS snap of write_mstatus is invisible through any field
disjoint from FS. -/
theorem snap_land (x F : Nat) (h : MSTATUS_FS &&& F = 0) :
    (if x &&& MSTATUS_FS ≠ 0 then x ||| MSTATUS_FS else x) &&& F =
      x &&& F := by
  split
  · exact lor_land_cancel x MSTATUS_FS F h
  · rfl

/-- The only combined read-modify-write accessors in the table are
rmw_mip (at mip) and rmw_sip (at sip). -/
theorem csr_ops_op_cases (cfg : Config) (c : Nat) :
    ∀ f, (csr_ops cfg c).op = some f →
      f = rmw_mip cfg ∨ f = rmw_sip cfg := by
  intro f hf
  unfold csr_ops at hf
  cases h : csrClass cfg c <;> rw [h] at hf <;>
    first
      | (cases hf; exact Or.inl rfl)
      | (cases hf; exact Or.inr rfl)
      | cases hf

/-- rmw_mip with a zero write mask is a pure (truncated) load. -/
theorem rmw_mip_zero_mask (cfg : Config) (env : CPURISCVState)
    (c n : Nat) : rmw_mip cfg env c n 0 = (env.mip % 2 ^ 32, env) := by
  simp [rmw_mip]

/-- rmw_sip with a zero write mask is a pure (truncated) load. -/
theorem rmw_sip_zero_mask (cfg : Config) (env : CPURISCVState)
    (c n : Nat) : rmw_sip cfg env c n 0 = (env.mip % 2 ^ 32, env) := by
  simp [rmw_sip, rmw_mip]

/-- rmw_mip never changes mstatus. -/
theorem rmw_mip_mstatus (cfg : Config) (env : CPURISCVState)
    (c n m : Nat) : ((rmw_mip cfg env c n m).2).mstatus = env.mstatus := by
  simp only [rmw_mip, riscv_set_local_interrupt]
  split <;> rfl

/-- rmw_sip never changes mstatus. -/
theorem rmw_sip_mstatus (cfg : Config) (env : CPURISCVState)
    (c n m : Nat) : ((rmw_sip cfg env c n m).2).mstatus = env.mstatus := by
  unfold rmw_sip
  exact rmw_mip_mstatus cfg env CSR_MSTATUS n (m &&& env.mideleg)

/-- The privilege field of a CSR number is its bits [9:8]. -/
theorem get_field_csr_priv (cfg : Config) (c : Nat) :
    get_field cfg c 0x300 = (c &&& 0x300) / 0x100 := by
  have h : lowestBit cfg 0x300 = 0x100 := by
    cases hw : cfg.rv64 <;>
      simp [lowestBit, wnot, wones, wbits, hw] <;> decide
  rw [get_field, h]

/-- The writability field of a CSR number is its bits [11:10]. -/
theorem get_field_csr_rw (cfg : Config) (c : Nat) :
    get_field cfg c 0xC00 = (c &&& 0xC00) / 0x400 := by
  have h : lowestBit cfg 0xC00 = 0x400 := by
    cases hw : cfg.rv64 <;>
      simp [lowestBit, wnot, wones, wbits, hw] <;> decide
  rw [get_field, h]

/-- Exhaustive case analysis of one riscv_csrrw call: either the gate
(or a failing accessor) rejects with the state intact, or a combined
accessor ran, or a read (and possibly a write through the merge) ran
successfully. -/
theorem csrrw_cases (cfg : Config) (env : CPURISCVState) (c n m : Nat) :
    (riscv_csrrw cfg env c n m = (-1, 0, env)) ∨
    (∃ f, (csr_ops cfg c).op = some f ∧
      riscv_csrrw cfg env c n m =
        (0, (f env c (n &&& wones cfg) (m &&& wones cfg)).1,
            (f env c (n &&& wones cfg) (m &&& wones cfg)).2)) ∨
    (∃ rd old, (csr_ops cfg c).op = none ∧
      (csr_ops cfg c).read = some rd ∧ rd env c = some old ∧
      ((riscv_csrrw cfg env c n m = (0, old, env)) ∨
       ((m &&& wones cfg) ≠ 0 ∧
        ∃ w env2, (csr_ops cfg c).write = some w ∧
          w env c ((old &&& wnot cfg (m &&& wones cfg)) |||
                   ((n &&& wones cfg) &&& (m &&& wones cfg))) = some env2 ∧
          riscv_csrrw cfg env c n m = (0, old, env2)))) := by
  have hgate : riscv_csrrw cfg env c n m =
      if ((m &&& wones cfg) ≠ 0 ∧ get_field cfg c 0xC00 = 3) ∨
         env.priv < get_field cfg c 0x300 then (-1, 0, env)
      else csrDispatch cfg env c (n &&& wones cfg) (m &&& wones cfg) := rfl
  by_cases hg : ((m &&& wones cfg) ≠ 0 ∧ get_field cfg c 0xC00 = 3) ∨
      env.priv < get_field cfg c 0x300
  · rw [if_pos hg] at hgate
    exact Or.inl hgate
  · rw [if_neg hg] at hgate
    rcases hop : (csr_ops cfg c).op with _ | f
    · rcases hrd : (csr_ops cfg c).read with _ | rd
      · have hd : csrDispatch cfg env c (n &&& wones cfg)
            (m &&& wones cfg) = (-1, 0, env) := by
          simp only [csrDispatch, hop, hrd]
        exact Or.inl (hgate.trans hd)
      · rcases hv : rd env c with _ | old
        · have hd : csrDispatch cfg env c (n &&& wones cfg)
              (m &&& wones cfg) = (-1, 0, env) := by
            simp only [csrDispatch, hop, hrd, hv]
          exact Or.inl (hgate.trans hd)
        · by_cases hm : (m &&& wones cfg) ≠ 0
          · rcases hw : (csr_ops cfg c).write with _ | w
            · have hd : csrDispatch cfg env c (n &&& wones cfg)
                  (m &&& wones cfg) = (0, old, env) := by
                simp only [csrDispatch, hop, hrd, hv, hw]
                rw [if_pos hm]
              exact Or.inr (Or.inr
                ⟨rd, old, rfl, rfl, hv, Or.inl (hgate.trans hd)⟩)
            · rcases hres : w env c
                  ((old &&& wnot cfg (m &&& wones cfg)) |||
                   ((n &&& wones cfg) &&& (m &&& wones cfg))) with _ | env2
              · have hd : csrDispatch cfg env c (n &&& wones cfg)
                    (m &&& wones cfg) = (-1, 0, env) := by
                  simp only [csrDispatch, hop, hrd, hv, hw]
                  rw [if_pos hm]
                  simp only [hres]
                exact Or.inl (hgate.trans hd)
              · have hd : csrDispatch cfg env c (n &&& wones cfg)
                    (m &&& wones cfg) = (0, old, env2) := by
                  simp only [csrDispatch, hop, hrd, hv, hw]
                  rw [if_pos hm]
                  simp only [hres]
                exact Or.inr (Or.inr ⟨rd, old, rfl, rfl, hv,
                  Or.inr ⟨hm, w, env2, rfl, hres, hgate.trans hd⟩⟩)
          · have hd : csrDispatch cfg env c (n &&& wones cfg)
                (m &&& wones cfg) = (0, old, env) := by
              simp only [csrDispatch, hop, hrd, hv]
              rw [if_neg hm]
            exact Or.inr (Or.inr
              ⟨rd, old, rfl, rfl, hv, Or.inl (hgate.trans hd)⟩)
    · have hd : csrDispatch cfg env c (n &&& wones cfg)
          (m &&& wones cfg) =
          (0, (f env c (n &&& wones cfg) (m &&& wones cfg)).1,
              (f env c (n &&& wones cfg) (m &&& wones cfg)).2) := by
        simp only [csrDispatch, hop]
      exact Or.inr (Or.inl ⟨f, rfl, hgate.trans hd⟩)

/-- C1: the access gate rejects (returns -1 with the state intact)
exactly on insufficient privilege (csrno bits [9:8]), on a non-zero
write mask against a read-only number (csrno bits [11:10] all-ones),
or on a CSR number without an accessor table entry; in all other cases
the call is the dispatch to the accessors. -/
theorem csrrw_gate_illegal (cfg : Config) (env : CPURISCVState)
    (c n m : Nat) (hc : c < 0xfff) :
    ((env.priv < get_field cfg c 0x300 ∨
      ((m &&& wones cfg) ≠ 0 ∧ get_field cfg c 0xC00 = 3) ∨
      ((csr_ops cfg c).read = none ∧ (csr_ops cfg c).op = none)) →
        riscv_csrrw cfg env c n m = (-1, 0, env)) ∧
    (¬ (env.priv < get_field cfg c 0x300 ∨
      ((m &&& wones cfg) ≠ 0 ∧ get_field cfg c 0xC00 = 3) ∨
      ((csr_ops cfg c).read = none ∧ (csr_ops cfg c).op = none)) →
        riscv_csrrw cfg env c n m =
          csrDispatch cfg env c (n &&& wones cfg) (m &&& wones cfg)) := by
  constructor
  · intro h
    simp only [riscv_csrrw]
    by_cases hg : (((m &&& wones cfg) ≠ 0 ∧ get_field cfg c 0xC00 = 3) ∨
        env.priv < get_field cfg c 0x300)
    · rw [if_pos hg]
    · rw [if_neg hg]
      rcases h with h | h | h
      · exact absurd (Or.inr h) hg
      · exact absurd (Or.inl h) hg
      · simp only [csrDispatch, h.1, h.2]
  · intro h
    obtain ⟨h1, h2⟩ := not_or.mp h
    obtain ⟨h2, h3⟩ := not_or.mp h2
    simp only [riscv_csrrw]
    rw [if_neg (fun hg => hg.elim h2 h1)]

/-- C1 witness: a write-masked access to the read-only cycle counter
is rejected with the state intact; a plain mscratch access is
dispatched to the accessors. -/
theorem csrrw_gate_illegal_witness :
    riscv_csrrw rv64sys hart0 CSR_CYCLE 0 1 = (-1, 0, hart0) ∧
    riscv_csrrw rv64sys hart0 CSR_MSCRATCH 5 0 =
      csrDispatch rv64sys hart0 CSR_MSCRATCH (5 &&& wones rv64sys)
        (0 &&& wones rv64sys) := by
  constructor
  · exact (csrrw_gate_illegal rv64sys hart0 CSR_CYCLE 0 1 (by decide)).1
      (Or.inr (Or.inl ⟨by decide, by decide⟩))
  · refine (csrrw_gate_illegal rv64sys hart0 CSR_MSCRATCH 5 0 (by decide)).2 ?_
    intro h
    rcases h with h | h | ⟨h1, h2⟩
    · exact absurd h (by decide)
    · exact absurd h.1 (by decide)
    · have hrd : (csr_ops rv64sys CSR_MSCRATCH).read =
        some (read_mscratch rv64sys) := rfl
      rw [hrd] at h1
      cases h1

/-- C8: whenever riscv_csrrw returns the illegal-CSR status -1 — from
the gate or from any failing accessor — the hart state (including the
TLB-flush and interrupt-controller counters) is unchanged. -/
theorem csrrw_illegal_no_side_effects (cfg : Config)
    (env : CPURISCVState) (c n m : Nat) :
    (riscv_csrrw cfg env c n m).1 = -1 →
      (riscv_csrrw cfg env c n m).2.2 = env := by
  intro h
  rcases csrrw_cases cfg env c n m with he | ⟨f, hop, he⟩ |
    ⟨rd, old, hop, hrd, hv, he | ⟨hm, w, env2, hw, hres, he⟩⟩
  · rw [he]
  · rw [he] at h
    exact absurd h (by simp)
  · rw [he] at h
    exact absurd h (by simp)
  · rw [he] at h
    exact absurd h (by simp)

/-- C8 witness: the rejected write-masked access to cycle leaves the
hart untouched. -/
theorem csrrw_illegal_no_side_effects_witness :
    (riscv_csrrw rv64sys hart0 CSR_CYCLE 0 1).2.2 = hart0 :=
  csrrw_illegal_no_side_effects rv64sys hart0 CSR_CYCLE 0 1 (by decide)

/-- C9: a riscv_csrrw call with write mask zero never mutates the hart
state, and when it succeeds it returns the CSR's current value. -/
theorem csrrw_zero_mask_pure (cfg : Config) (env : CPURISCVState)
    (c v : Nat) :
    (riscv_csrrw cfg env c v 0).2.2 = env ∧
    ((riscv_csrrw cfg env c v 0).1 = 0 →
      csrReadValue cfg env c = some (riscv_csrrw cfg env c v 0).2.1) := by
  rcases csrrw_cases cfg env c v 0 with he | ⟨f, hop, he⟩ |
    ⟨rd, old, hop, hrd, hv, he | ⟨hm, w, env2, hw, hres, he⟩⟩
  · rw [he]
    exact ⟨rfl, fun h => absurd h (by simp)⟩
  · rw [Nat.zero_and] at he
    rcases csr_ops_op_cases cfg c f hop with hf | hf <;> subst hf
    · rw [he, rmw_mip_zero_mask]
      refine ⟨rfl, fun _ => ?_⟩
      simp only [csrReadValue, hop]
      rw [rmw_mip_zero_mask]
    · rw [he, rmw_sip_zero_mask]
      refine ⟨rfl, fun _ => ?_⟩
      simp only [csrReadValue, hop]
      rw [rmw_sip_zero_mask]
  · rw [he]
    refine ⟨rfl, fun _ => ?_⟩
    simp only [csrReadValue, hop, hrd, hv]
  · rw [Nat.zero_and] at hm
    exact absurd rfl hm

/-- C9 witness: a zero-mask access to mscratch leaves the state
unchanged and returns the stored value. -/
theorem csrrw_zero_mask_pure_witness :
    (riscv_csrrw rv64sys hart0 CSR_MSCRATCH 7 0).2.2 = hart0 ∧
    csrReadValue rv64sys hart0 CSR_MSCRATCH =
      some (riscv_csrrw rv64sys hart0 CSR_MSCRATCH 7 0).2.1 :=
  ⟨(csrrw_zero_mask_pure rv64sys hart0 CSR_MSCRATCH 7).1,
   (csrrw_zero_mask_pure rv64sys hart0 CSR_MSCRATCH 7).2 (by decide)⟩

/-- The effective rmw_mip mask: the delegable interrupts with SEIP
removed are exactly SSIP and STIP. -/
theorem rmw_mip_effective_mask (cfg : Config) (m : Nat) :
    (m &&& delegable_ints) &&& wnot cfg MIP_SEIP =
      m &&& (MIP_SSIP ||| MIP_STIP) := by
  rw [Nat.land_assoc]
  have h : delegable_ints &&& wnot cfg MIP_SEIP =
      MIP_SSIP ||| MIP_STIP := by
    cases hw : cfg.rv64 <;>
      simp [delegable_ints, wnot, wones, wbits, hw, MIP_SSIP, MIP_STIP,
        MIP_SEIP] <;> decide
  rw [h]

/-- C2 counterexample: a csrrw access to mip whose mask selects MSIP
does not replace the MSIP bit — the effective mask drops MSIP (it is
not a delegable interrupt), so the claim that only SEIP is removed
from the mask is false. -/
theorem rmw_mip_msip_not_written :
    ((rmw_mip rv64sys hart0 CSR_MIP MIP_MSIP MIP_MSIP).2).mip.testBit 3
        = false ∧
    (MIP_MSIP : Nat).testBit 3 = true := by
  decide

/-- C2 (amended): a csrrw access to mip with write mask m updates mip
exactly through the effective mask m AND (SSIP OR STIP) — the
delegable interrupts with SEIP removed; every bit selected by that
effective mask is replaced by the corresponding bit of the new value,
all other bits (including MSIP, MTIP, and SEIP) are preserved, the
prior mip value is returned, and with m = 0 the access is an atomic
load that modifies nothing. -/
theorem rmw_mip_update (cfg : Config) (env : CPURISCVState)
    (c new m : Nat) (hmip : env.mip < 2 ^ 32) :
    (rmw_mip cfg env c new m).1 = env.mip ∧
    ((rmw_mip cfg env c new m).2).mip =
      (env.mip &&& wnot cfg (m &&& (MIP_SSIP ||| MIP_STIP))) |||
      (new &&& (m &&& (MIP_SSIP ||| MIP_STIP))) ∧
    (m = 0 → (rmw_mip cfg env c new m).2 = env) := by
  have hm32 : env.mip % 2 ^ 32 = env.mip := Nat.mod_eq_of_lt hmip
  have heff := rmw_mip_effective_mask cfg m
  by_cases h0 : m &&& (MIP_SSIP ||| MIP_STIP) = 0
  · have hbranch : rmw_mip cfg env c new m = (env.mip % 2 ^ 32, env) := by
      simp only [rmw_mip, riscv_set_local_interrupt, heff]
      rw [if_neg (not_not_intro h0)]
    rw [hbranch]
    refine ⟨hm32, ?_, fun _ => rfl⟩
    rw [h0]
    have hw : wnot cfg 0 = wones cfg := by
      simp [wnot, Nat.zero_and, Nat.xor_zero]
    rw [hw, Nat.and_zero, Nat.or_zero, land_wones_eq_mod]
    have hlt : env.mip < 2 ^ wbits cfg := by
      cases hrv : cfg.rv64 <;> simp [wbits, hrv] <;> omega
    exact (Nat.mod_eq_of_lt hlt).symm
  · have hbranch : rmw_mip cfg env c new m =
        (env.mip % 2 ^ 32,
         { env with
             mip := (env.mip &&& wnot cfg (m &&& (MIP_SSIP ||| MIP_STIP)))
               ||| (new &&& (m &&& (MIP_SSIP ||| MIP_STIP))),
             irqUpdates := env.irqUpdates + 1 }) := by
      simp only [rmw_mip, riscv_set_local_interrupt, heff]
      rw [if_pos h0, land_land_self]
    rw [hbranch]
    exact ⟨hm32, rfl,
      fun hm => absurd (by rw [hm]; exact Nat.zero_and _) h0⟩

/-- C2 witness: writing SSIP through mip replaces exactly the SSIP
bit and returns the prior value. -/
theorem rmw_mip_update_witness :
    (rmw_mip rv64sys hart0 CSR_MIP MIP_SSIP MIP_SSIP).1 = hart0.mip ∧
    ((rmw_mip rv64sys hart0 CSR_MIP MIP_SSIP MIP_SSIP).2).mip =
      (hart0.mip &&& wnot rv64sys (MIP_SSIP &&& (MIP_SSIP ||| MIP_STIP)))
        ||| (MIP_SSIP &&& (MIP_SSIP &&& (MIP_SSIP ||| MIP_STIP))) := by
  have h := rmw_mip_update rv64sys hart0 CSR_MIP MIP_SSIP MIP_SSIP
    (by decide)
  exact ⟨h.1, by rw [h.2.1]⟩

/-- C3 (code defect): under priv spec 1.10 the counter-enable gate of
counter_enabled consults the stale hart fields mucounteren and
mscounteren, which no CSR write updates — the scounteren / mcounteren
registers written through the CSR interface are ignored.  With every
bit of scounteren and mcounteren set (and the stale field zero) a
user-mode cycle read still fails, and with the stale field set it
succeeds even though scounteren is zero. -/
theorem counter_enable_gating_ignores_scounteren :
    (riscv_csrrw rv64sys
      { hart0 with priv := PRV_U, scounteren := 0xFFFFFFFF,
                   mcounteren := 0xFFFFFFFF }
      CSR_CYCLE 0 0).1 = -1 ∧
    (riscv_csrrw rv64sys
      { hart0 with priv := PRV_U, mucounteren := 0xFFFFFFFF }
      CSR_CYCLE 0 0).1 = 0 := by
  decide

/-- C6: under priv spec 1.10 on a hart with an MMU, a satp write whose
MODE field is outside the valid per-XLEN table (RV32: Bare, Sv32;
RV64: Bare, Sv39, Sv48, Sv57 — the valid_vm_1_10 table) is dropped
silently with no TLB flush and the whole state intact; a write with a
valid MODE that changes any of MODE/ASID/PPN flushes the TLB and
stores the value. -/
theorem write_satp_1_10 (cfg : Config) (env : CPURISCVState) (v : Nat)
    (hmmu : cfg.mmu = true)
    (hver : env.priv_ver = PRIV_VERSION_1_10_0) :
    (validate_vm cfg env (get_field cfg v (SATP_MODE cfg)) = false →
      write_satp cfg env CSR_SATP v = some env) ∧
    (validate_vm cfg env (get_field cfg v (SATP_MODE cfg)) = true →
     (v ^^^ env.satp) &&&
       (SATP_MODE cfg ||| SATP_ASID cfg ||| SATP_PPN cfg) ≠ 0 →
      write_satp cfg env CSR_SATP v =
        some { env with satp := v,
                        tlbFlushes := env.tlbFlushes + 1 }) := by
  constructor
  · intro hval
    simp [write_satp, hmmu, hver, hval, PRIV_VERSION_1_09_1,
      PRIV_VERSION_1_10_0, tlb_flush]
  · intro hval hch
    simp [write_satp, hmmu, hver, hval, hch, PRIV_VERSION_1_09_1,
      PRIV_VERSION_1_10_0, tlb_flush]

/-- C6 witness: under 1.10 with an MMU, a write of reserved MODE 7
leaves a previously stored Sv39 root in place, and the Sv39 write
itself flushed and stored. -/
theorem write_satp_1_10_witness :
    write_satp rv64sys hart0 CSR_SATP (8 <<< 60) =
      some { hart0 with satp := 8 <<< 60,
                        tlbFlushes := hart0.tlbFlushes + 1 } ∧
    write_satp rv64sys { hart0 with satp := 8 <<< 60, tlbFlushes := 1 }
        CSR_SATP (7 <<< 60) =
      some { hart0 with satp := 8 <<< 60, tlbFlushes := 1 } :=
  ⟨(write_satp_1_10 rv64sys hart0 (8 <<< 60) (by decide) (by decide)).2
      (by decide) (by decide),
   (write_satp_1_10 rv64sys { hart0 with satp := 8 <<< 60, tlbFlushes := 1 }
      (7 <<< 60) (by decide) (by decide)).1 (by decide)⟩

/-- Conjunction is idempotent. -/
theorem land_self (x : Nat) : x &&& x = x := by
  apply Nat.eq_of_testBit_eq
  intro i
  simp only [Nat.testBit_and]
  cases x.testBit i <;> rfl

/-- A mask contained in another vanishes under the complement of the
latter. -/
theorem land_wnot_of_subset (cfg : Config) (F s : Nat)
    (h : F &&& s = F) : F &&& wnot cfg s = 0 := by
  apply Nat.eq_of_testBit_eq
  intro i
  have hi := congrArg (fun t => t.testBit i) h
  simp only [Nat.testBit_and] at hi
  simp only [Nat.testBit_and, testBit_wnot, Nat.zero_testBit]
  cases hF : F.testBit i <;> cases hs : s.testBit i <;>
    cases (wones cfg).testBit i <;> simp_all

/-- A mask fitting in the low 32 bits fits in any target word. -/
theorem land_wones_small (cfg : Config) (F : Nat)
    (h32 : F &&& 0xFFFFFFFF = F) : F &&& wones cfg = F := by
  apply Nat.eq_of_testBit_eq
  intro i
  have hi := congrArg (fun t => t.testBit i) h32
  simp only [Nat.testBit_and] at hi
  simp only [Nat.testBit_and, wones, Nat.testBit_two_pow_sub_one]
  have h58 : (0xFFFFFFFF : Nat) = 2 ^ 32 - 1 := by decide
  rw [h58, Nat.testBit_two_pow_sub_one] at hi
  by_cases hlt : i < 32
  · have : i < wbits cfg := by
      cases hw : cfg.rv64 <;> simp [wbits, hw] <;> omega
    simp [this]
  · have : F.testBit i = false := by
      rw [← hi]
      simp [hlt]
    simp [this]

/-- The SD bit (the top bit of the word) is disjoint from any mask
that fits in the low 31 bits. -/
theorem sd_land_small (cfg : Config) (F : Nat)
    (h31 : F &&& 0x7FFFFFFF = F) : MSTATUS_SD cfg &&& F = 0 := by
  apply Nat.eq_of_testBit_eq
  intro i
  have hi := congrArg (fun t => t.testBit i) h31
  simp only [Nat.testBit_and] at hi
  have h59 : (0x7FFFFFFF : Nat) = 2 ^ 31 - 1 := by decide
  rw [h59, Nat.testBit_two_pow_sub_one] at hi
  simp only [Nat.testBit_and, Nat.zero_testBit]
  by_cases hlt : i < 31
  · have hsd : (MSTATUS_SD cfg).testBit i = false := by
      have h63 : (0x8000000000000000 : Nat) = 2 ^ 63 := by decide
      have h31b : (0x80000000 : Nat) = 2 ^ 31 := by decide
      cases hw : cfg.rv64
      · simp [MSTATUS_SD, hw]
        rw [h31b, Nat.testBit_two_pow]
        exact decide_eq_false (by omega)
      · simp [MSTATUS_SD, hw]
        rw [h63, Nat.testBit_two_pow]
        exact decide_eq_false (by omega)
    simp [hsd]
  · have hF : F.testBit i = false := by
      rw [← hi]
      simp [hlt]
    simp [hF]

/-- The lowest set bit of the single-bit SD mask is the mask
itself. -/
theorem lowestBit_SD (cfg : Config) :
    lowestBit cfg (MSTATUS_SD cfg) = MSTATUS_SD cfg := by
  cases hw : cfg.rv64 <;>
    simp [lowestBit, wnot, wones, wbits, MSTATUS_SD, hw] <;> decide

/-- write_mstatus always succeeds and stores mstatus_merge_final for
some effective mask disjoint from XS. -/
theorem write_mstatus_mstatus (cfg : Config) (env : CPURISCVState)
    (c v : Nat) (env2 : CPURISCVState)
    (h : write_mstatus cfg env c v = some env2) :
    ∃ mask, mask &&& MSTATUS_XS = 0 ∧
      env2.mstatus = mstatus_merge_final cfg env.mstatus v mask := by
  have hx : ∀ mk : Nat, mk &&& MSTATUS_XS = 0 →
      (mk &&& wnot cfg MSTATUS_MPP) &&& MSTATUS_XS = 0 := by
    intro mk hmk
    rw [land_right_comm, hmk, Nat.zero_and]
  simp only [write_mstatus] at h
  cases h
  refine ⟨_, ?_, rfl⟩
  split_ifs <;>
    first
      | decide
      | (apply hx; decide)

/-- A field inside the write mask (and disjoint from FS and SD) of
the final mstatus comes from the written value. -/
theorem merge_final_land_subset (cfg : Config) (m v mask F : Nat)
    (hsub : mask &&& F = F)
    (hFS : MSTATUS_FS &&& F = 0)
    (hSD : MSTATUS_SD cfg &&& F = 0)
    (hw : F &&& wones cfg = F) :
    mstatus_merge_final cfg m v mask &&& F = v &&& F := by
  simp only [mstatus_merge_final, set_field, lowestBit_SD]
  rw [land_lor_right, land_wnot_outside cfg _ _ _ hSD hw,
    land_land_of_disjoint _ _ _ hSD, Nat.or_zero, snap_land _ _ hFS]
  exact merge_land_of_subset cfg m v mask F hsub

/-- A field outside the write mask (and disjoint from FS and SD) of
the final mstatus keeps its prior value. -/
theorem merge_final_land_disjoint (cfg : Config) (m v mask F : Nat)
    (hdis : mask &&& F = 0)
    (hFS : MSTATUS_FS &&& F = 0)
    (hSD : MSTATUS_SD cfg &&& F = 0)
    (hw : F &&& wones cfg = F) :
    mstatus_merge_final cfg m v mask &&& F = m &&& F := by
  simp only [mstatus_merge_final, set_field, lowestBit_SD]
  rw [land_lor_right, land_wnot_outside cfg _ _ _ hSD hw,
    land_land_of_disjoint _ _ _ hSD, Nat.or_zero, snap_land _ _ hFS]
  exact merge_land_of_disjoint cfg m v mask F hdis hw

/-- The FS field of the final mstatus: the written FS value snapped
to Dirty when non-Off. -/
theorem merge_final_land_fs (cfg : Config) (m v mask : Nat)
    (hsub : mask &&& MSTATUS_FS = MSTATUS_FS)
    (hSD : MSTATUS_SD cfg &&& MSTATUS_FS = 0)
    (hwFS : MSTATUS_FS &&& wones cfg = MSTATUS_FS) :
    mstatus_merge_final cfg m v mask &&& MSTATUS_FS =
      (if v &&& MSTATUS_FS = 0 then 0 else MSTATUS_FS) := by
  simp only [mstatus_merge_final, set_field, lowestBit_SD]
  rw [land_lor_right, land_wnot_outside cfg _ _ _ hSD hwFS,
    land_land_of_disjoint _ _ _ hSD, Nat.or_zero]
  have hms1 : ((m &&& wnot cfg mask) ||| (v &&& mask)) &&& MSTATUS_FS =
      v &&& MSTATUS_FS := merge_land_of_subset cfg m v mask _ hsub
  by_cases hvf : v &&& MSTATUS_FS = 0
  · rw [if_pos hvf]
    have h0 : ((m &&& wnot cfg mask) ||| (v &&& mask)) &&& MSTATUS_FS = 0 :=
      hms1.trans hvf
    rw [if_neg (not_not_intro h0)]
    exact h0
  · rw [if_neg hvf]
    have hne : ((m &&& wnot cfg mask) ||| (v &&& mask)) &&& MSTATUS_FS ≠ 0 :=
      fun hh => hvf (hms1.symm.trans hh)
    rw [if_pos hne]
    exact lor_land_self _ _

/-- The mstatus computed by write_mstatus satisfies the shape
invariant whenever the prior XS field was clear. -/
theorem mstatus_merge_final_inv (cfg : Config) (m v mask : Nat)
    (hm : m &&& MSTATUS_XS = 0) (hmask : mask &&& MSTATUS_XS = 0) :
    mstatusInv cfg (mstatus_merge_final cfg m v mask) := by
  have hXSw : MSTATUS_XS &&& wones cfg = MSTATUS_XS :=
    land_wones_small cfg _ (by decide)
  have hFSw : MSTATUS_FS &&& wones cfg = MSTATUS_FS :=
    land_wones_small cfg _ (by decide)
  have hSDXS : MSTATUS_SD cfg &&& MSTATUS_XS = 0 :=
    sd_land_small cfg _ (by decide)
  have hSDFS : MSTATUS_SD cfg &&& MSTATUS_FS = 0 :=
    sd_land_small cfg _ (by decide)
  simp only [mstatus_merge_final, set_field, lowestBit_SD]
  set ms1 := (m &&& wnot cfg mask) ||| (v &&& mask) with hms1def
  set ms2 := if ms1 &&& MSTATUS_FS ≠ 0 then ms1 ||| MSTATUS_FS else ms1
    with hms2def
  have hXS1 : ms1 &&& MSTATUS_XS = 0 :=
    (merge_land_of_disjoint cfg m v mask _ hmask hXSw).trans hm
  have hXS2 : ms2 &&& MSTATUS_XS = 0 := by
    rw [hms2def, snap_land _ _ (by decide)]
    exact hXS1
  have hFS2 : ms2 &&& MSTATUS_FS = 0 ∨ ms2 &&& MSTATUS_FS = MSTATUS_FS := by
    rw [hms2def]
    by_cases h : ms1 &&& MSTATUS_FS = 0
    · rw [if_neg (not_not_intro h)]
      exact Or.inl h
    · rw [if_pos h]
      exact Or.inr (lor_land_self _ _)
  have hd2 : (if ms2 &&& MSTATUS_XS = MSTATUS_XS then (1 : Nat) else 0)
      = 0 := by
    refine if_neg ?_
    rw [hXS2]
    decide
  rw [hd2, Nat.or_zero]
  by_cases hFSd : ms2 &&& MSTATUS_FS = MSTATUS_FS
  · rw [if_pos hFSd, Nat.one_mul, land_self]
    refine ⟨?_, ?_, ?_⟩
    · rw [land_lor_right, land_wnot_outside cfg _ _ _ hSDXS hXSw,
        hXS2, hSDXS]
      decide
    · refine Or.inr ?_
      rw [land_lor_right, land_wnot_outside cfg _ _ _ hSDFS hFSw,
        hFSd, hSDFS, Nat.or_zero]
    · have hfs : ((ms2 &&& wnot cfg (MSTATUS_SD cfg)) ||| MSTATUS_SD cfg)
          &&& MSTATUS_FS = MSTATUS_FS := by
        rw [land_lor_right, land_wnot_outside cfg _ _ _ hSDFS hFSw,
          hFSd, hSDFS, Nat.or_zero]
      rw [if_pos hfs, land_lor_right, land_wnot_land_self, Nat.zero_or,
        land_self]
  · rw [if_neg hFSd, Nat.zero_mul, Nat.zero_and, Nat.or_zero]
    have hfs0 : ms2 &&& MSTATUS_FS = 0 := by
      rcases hFS2 with h | h
      · exact h
      · exact absurd h hFSd
    refine ⟨?_, ?_, ?_⟩
    · rw [land_wnot_outside cfg _ _ _ hSDXS hXSw]
      exact hXS2
    · refine Or.inl ?_
      rw [land_wnot_outside cfg _ _ _ hSDFS hFSw]
      exact hfs0
    · have hfs : (ms2 &&& wnot cfg (MSTATUS_SD cfg)) &&& MSTATUS_FS
          ≠ MSTATUS_FS := by
        rw [land_wnot_outside cfg _ _ _ hSDFS hFSw, hfs0]
        decide
      rw [if_neg hfs, land_wnot_land_self]

/-- write_mstatus preserves the mstatus shape invariant. -/
theorem write_mstatus_inv (cfg : Config) (env : CPURISCVState)
    (c v : Nat) (env2 : CPURISCVState)
    (hXS : env.mstatus &&& MSTATUS_XS = 0)
    (h : write_mstatus cfg env c v = some env2) :
    mstatusInv cfg env2.mstatus := by
  obtain ⟨mask, hmask, heq⟩ := write_mstatus_mstatus cfg env c v env2 h
  rw [heq]
  exact mstatus_merge_final_inv cfg env.mstatus v mask hXS hmask

/-- The mstatus stored by write_mstatus agrees with the old value
outside a mask containing FS and SD, whenever the written value
already did. -/
theorem merge_final_wnot_frame (cfg : Config) (m v mask s : Nat)
    (hv : v &&& wnot cfg s = m &&& wnot cfg s)
    (hSDwn : MSTATUS_SD cfg &&& wnot cfg s = 0)
    (hFSwn : MSTATUS_FS &&& wnot cfg s = 0) :
    mstatus_merge_final cfg m v mask &&& wnot cfg s =
      m &&& wnot cfg s := by
  simp only [mstatus_merge_final, set_field, lowestBit_SD]
  rw [land_lor_right,
    land_wnot_outside cfg _ _ _ hSDwn (wnot_land_wones cfg s),
    land_land_of_disjoint _ _ _ hSDwn, Nat.or_zero, snap_land _ _ hFSwn]
  exact merge_wnot_outside cfg m v mask s hv

/-- C7: reading sstatus yields mstatus masked by the version-dependent
sstatus mask (sstatus_v1_9_mask under 1.9.1, sstatus_v1_10_mask under
1.10), a write to sstatus delegates to the mstatus writer with exactly
the masked bits merged in, and such a write changes no mstatus bit
outside the mask — so sstatus == mstatus AND sstatus_mask holds in
every state, the view being computed from mstatus. -/
theorem sstatus_view_of_mstatus (cfg : Config) (env : CPURISCVState)
    (c v : Nat) :
    read_sstatus cfg env c =
      some (env.mstatus &&& sstatus_mask cfg env) ∧
    write_sstatus cfg env c v =
      write_mstatus cfg env CSR_MSTATUS
        ((env.mstatus &&& wnot cfg (sstatus_mask cfg env)) |||
         (v &&& sstatus_mask cfg env)) ∧
    (∀ env2, write_sstatus cfg env c v = some env2 →
      env2.mstatus &&& wnot cfg (sstatus_mask cfg env) =
        env.mstatus &&& wnot cfg (sstatus_mask cfg env)) := by
  refine ⟨rfl, rfl, ?_⟩
  intro env2 h
  have hSDs : MSTATUS_SD cfg &&& sstatus_mask cfg env = MSTATUS_SD cfg := by
    unfold sstatus_mask
    split <;>
      (cases hw : cfg.rv64 <;>
        simp [sstatus_v1_10_mask, sstatus_v1_9_mask, SSTATUS_SD,
          MSTATUS_SD, SSTATUS_SIE, SSTATUS_SPIE, SSTATUS_UIE, SSTATUS_UPIE,
          SSTATUS_SPP, SSTATUS_FS, SSTATUS_XS, SSTATUS_SUM, SSTATUS_MXR,
          hw] <;> decide)
  have hFSs : MSTATUS_FS &&& sstatus_mask cfg env = MSTATUS_FS := by
    unfold sstatus_mask
    split <;>
      (cases hw : cfg.rv64 <;>
        simp [sstatus_v1_10_mask, sstatus_v1_9_mask, SSTATUS_SD,
          MSTATUS_SD, MSTATUS_FS, SSTATUS_SIE, SSTATUS_SPIE, SSTATUS_UIE,
          SSTATUS_UPIE, SSTATUS_SPP, SSTATUS_FS, SSTATUS_XS, SSTATUS_SUM,
          SSTATUS_MXR, hw] <;> decide)
  have h2 : write_mstatus cfg env CSR_MSTATUS
      ((env.mstatus &&& wnot cfg (sstatus_mask cfg env)) |||
       (v &&& sstatus_mask cfg env)) = some env2 := h
  obtain ⟨mask, _, heq⟩ :=
    write_mstatus_mstatus cfg env CSR_MSTATUS _ env2 h2
  rw [heq]
  have hN : ((env.mstatus &&& wnot cfg (sstatus_mask cfg env)) |||
      (v &&& sstatus_mask cfg env)) &&& wnot cfg (sstatus_mask cfg env) =
      env.mstatus &&& wnot cfg (sstatus_mask cfg env) := by
    rw [land_lor_right, Nat.land_assoc, land_self, Nat.land_assoc,
      land_wnot_self, Nat.and_zero, Nat.or_zero]
  exact merge_final_wnot_frame cfg env.mstatus _ mask
    (sstatus_mask cfg env) hN (land_wnot_of_subset cfg _ _ hSDs)
    (land_wnot_of_subset cfg _ _ hFSs)

/-- C7 witness: the view equation and the frame property at a
concrete hart (writing 5 through sstatus leaves this hart
unchanged). -/
theorem sstatus_view_of_mstatus_witness :
    read_sstatus rv64sys hart0 CSR_SSTATUS =
      some (hart0.mstatus &&& sstatus_mask rv64sys hart0) ∧
    hart0.mstatus &&& wnot rv64sys (sstatus_mask rv64sys hart0) =
      hart0.mstatus &&& wnot rv64sys (sstatus_mask rv64sys hart0) :=
  ⟨(sstatus_view_of_mstatus rv64sys hart0 CSR_SSTATUS 5).1,
   (sstatus_view_of_mstatus rv64sys hart0 CSR_SSTATUS 5).2.2 hart0
     (by decide)⟩

/-- write_mstatus always succeeds, storing exactly
mstatus_merge_final of the old value, the written value and
mstatus_wmask. -/
theorem write_mstatus_mstatus_eq (cfg : Config) (env : CPURISCVState)
    (c v : Nat) (env2 : CPURISCVState)
    (h : write_mstatus cfg env c v = some env2) :
    env2.mstatus =
      mstatus_merge_final cfg env.mstatus v (mstatus_wmask cfg env v) := by
  simp only [write_mstatus] at h
  cases h
  rfl

/-- C5: a write to mstatus whose incoming MPP field selects an
unsupported privilege mode (H always; S without the S extension;
U without the U extension) leaves the MPP field at its prior value
while the other writable plain fields are still updated from the
incoming value, and FS is updated (snapped to Dirty when non-Off). -/
theorem write_mstatus_unsupported_mpp (cfg : Config) (env : CPURISCVState)
    (v : Nat)
    (hver : env.priv_ver = PRIV_VERSION_1_09_1 ∨
            env.priv_ver = PRIV_VERSION_1_10_0)
    (hmpp : get_field cfg v MSTATUS_MPP = PRV_H ∨
            (¬ riscv_has_ext env RVS ∧
             get_field cfg v MSTATUS_MPP = PRV_S) ∨
            (¬ riscv_has_ext env RVU ∧
             get_field cfg v MSTATUS_MPP = PRV_U)) :
    ∀ env2, write_mstatus cfg env CSR_MSTATUS v = some env2 →
      get_field cfg env2.mstatus MSTATUS_MPP =
        get_field cfg env.mstatus MSTATUS_MPP ∧
      (∀ F, (F = MSTATUS_SIE ∨ F = MSTATUS_SPIE ∨ F = MSTATUS_MIE ∨
             F = MSTATUS_MPIE ∨ F = MSTATUS_SPP ∨ F = MSTATUS_MPRV ∨
             F = MSTATUS_SUM ∨ F = MSTATUS_MXR) →
        env2.mstatus &&& F = v &&& F) ∧
      env2.mstatus &&& MSTATUS_FS =
        (if v &&& MSTATUS_FS = 0 then 0 else MSTATUS_FS) := by
  intro env2 h
  have heq := write_mstatus_mstatus_eq cfg env CSR_MSTATUS v env2 h
  -- the effective mask under the hypotheses: a base mask with MPP
  -- cleared, where the base contains all the plain fields and FS and
  -- is disjoint from XS and SD
  obtain ⟨B, hmask, hBprops⟩ : ∃ B, mstatus_wmask cfg env v =
      B &&& wnot cfg MSTATUS_MPP ∧
      ∀ F, (F = MSTATUS_SIE ∨ F = MSTATUS_SPIE ∨ F = MSTATUS_MIE ∨
            F = MSTATUS_MPIE ∨ F = MSTATUS_SPP ∨ F = MSTATUS_MPRV ∨
            F = MSTATUS_SUM ∨ F = MSTATUS_MXR ∨ F = MSTATUS_FS) →
        B &&& F = F := by
    rcases hver with hv | hv
    · have hc2 : ¬ PRIV_VERSION_1_10_0 ≤ env.priv_ver := by
        rw [hv]; decide
      have hc1 : env.priv_ver ≤ PRIV_VERSION_1_09_1 := by
        rw [hv]
      refine ⟨MSTATUS_SIE ||| MSTATUS_SPIE ||| MSTATUS_MIE |||
        MSTATUS_MPIE ||| MSTATUS_SPP ||| MSTATUS_FS ||| MSTATUS_MPRV |||
        MSTATUS_SUM ||| MSTATUS_MPP ||| MSTATUS_MXR |||
        (if validate_vm cfg env (get_field cfg v MSTATUS_VM) then
          MSTATUS_VM else 0), ?_, ?_⟩
      · simp only [mstatus_wmask]
        rw [if_pos hmpp, if_neg hc2, if_pos hc1]
      · intro F hF
        rw [land_lor_right]
        have h2 : (if validate_vm cfg env (get_field cfg v MSTATUS_VM)
            then MSTATUS_VM else 0) &&& F = 0 := by
          rcases hF with h | h | h | h | h | h | h | h | h <;> subst h <;>
            (split <;> decide)
        rw [h2, Nat.or_zero]
        rcases hF with h | h | h | h | h | h | h | h | h <;> subst h <;>
          decide
    · have hc2 : PRIV_VERSION_1_10_0 ≤ env.priv_ver := by
        rw [hv]
      refine ⟨MSTATUS_SIE ||| MSTATUS_SPIE ||| MSTATUS_MIE |||
        MSTATUS_MPIE ||| MSTATUS_SPP ||| MSTATUS_FS ||| MSTATUS_MPRV |||
        MSTATUS_SUM ||| MSTATUS_MPP ||| MSTATUS_MXR, ?_, ?_⟩
      · simp only [mstatus_wmask]
        rw [if_pos hmpp, if_pos hc2]
      · intro F hF
        rcases hF with h | h | h | h | h | h | h | h | h <;> subst h <;>
          decide
  rw [heq, hmask]
  have hMPPw : MSTATUS_MPP &&& wones cfg = MSTATUS_MPP :=
    land_wones_small cfg _ (by decide)
  refine ⟨?_, ?_, ?_⟩
  · have hdis : (B &&& wnot cfg MSTATUS_MPP) &&& MSTATUS_MPP = 0 := by
      rw [Nat.land_assoc, wnot_land_self, Nat.and_zero]
    have hmp := merge_final_land_disjoint cfg env.mstatus v
      (B &&& wnot cfg MSTATUS_MPP) MSTATUS_MPP hdis (by decide)
      (sd_land_small cfg _ (by decide)) hMPPw
    rw [get_field, get_field, hmp]
  · intro F hF
    have h32 : F &&& 0xFFFFFFFF = F := by
      rcases hF with h | h | h | h | h | h | h | h <;> subst h <;> decide
    have h31 : F &&& 0x7FFFFFFF = F := by
      rcases hF with h | h | h | h | h | h | h | h <;> subst h <;> decide
    have hMPPF : MSTATUS_MPP &&& F = 0 := by
      rcases hF with h | h | h | h | h | h | h | h <;> subst h <;> decide
    have hFSF : MSTATUS_FS &&& F = 0 := by
      rcases hF with h | h | h | h | h | h | h | h <;> subst h <;> decide
    have hBF : B &&& F = F := by
      refine hBprops F ?_
      rcases hF with h | h | h | h | h | h | h | h <;> subst h <;> simp
    have hFw := land_wones_small cfg F h32
    exact merge_final_land_subset cfg env.mstatus v _ F
      ((land_wnot_outside cfg _ _ _ hMPPF hFw).trans hBF) hFSF
      (sd_land_small cfg F h31) hFw
  · have hBFS : B &&& MSTATUS_FS = MSTATUS_FS := hBprops MSTATUS_FS
      (by simp)
    have hFSw : MSTATUS_FS &&& wones cfg = MSTATUS_FS :=
      land_wones_small cfg _ (by decide)
    exact merge_final_land_fs cfg env.mstatus v _
      ((land_wnot_outside cfg _ _ _ (by decide) hFSw).trans hBFS)
      (sd_land_small cfg _ (by decide)) hFSw

/-- C5 witness: with priv spec 1.10 and S,U implemented, writing
MPP=2 (H) together with MPRV=1 to a zeroed mstatus keeps MPP at 0
while MPRV is applied. -/
theorem write_mstatus_unsupported_mpp_witness :
    get_field rv64sys
        ({ hart0 with mstatus := 1 <<< 17,
                      tlbFlushes := 1 } : CPURISCVState).mstatus
        MSTATUS_MPP =
      get_field rv64sys hart0.mstatus MSTATUS_MPP ∧
    ({ hart0 with mstatus := 1 <<< 17,
                  tlbFlushes := 1 } : CPURISCVState).mstatus &&&
        MSTATUS_MPRV =
      ((2 <<< 11) ||| (1 <<< 17)) &&& MSTATUS_MPRV :=
  ⟨(write_mstatus_unsupported_mpp rv64sys hart0 ((2 <<< 11) ||| (1 <<< 17))
      (Or.inr rfl) (Or.inl (by decide)) _ (by decide)).1,
   (write_mstatus_unsupported_mpp rv64sys hart0 ((2 <<< 11) ||| (1 <<< 17))
      (Or.inr rfl) (Or.inl (by decide)) _ (by decide)).2.1 MSTATUS_MPRV
     (by simp)⟩

/-- Accessors that never touch mstatus preserve the invariant. -/
theorem wpres_of_preserves (cfg : Config)
    (w : CPURISCVState → Nat → Nat → Option CPURISCVState)
    (hpres : ∀ env c v env2, w env c v = some env2 →
      env2.mstatus = env.mstatus) : WPres cfg w :=
  fun env c v env2 hi h => (hpres env c v env2 h) ▸ hi

/-- Setting the FS bits on an invariant-satisfying mstatus with FS
already non-Off is a no-op (FS was Dirty by the invariant). -/
theorem wpres_fp_or (cfg : Config) (env : CPURISCVState)
    (hi : mstatusInv cfg env.mstatus)
    (hg : ¬ env.mstatus &&& MSTATUS_FS = 0) :
    mstatusInv cfg (env.mstatus ||| MSTATUS_FS) := by
  have hFSfull : env.mstatus &&& MSTATUS_FS = MSTATUS_FS := by
    rcases hi.2.1 with h0 | h0
    · exact absurd h0 hg
    · exact h0
  rw [lor_eq_self_of_subset _ _ hFSfull]
  exact hi

/-- write_fflags preserves the mstatus shape invariant. -/
theorem wpres_write_fflags (cfg : Config) : WPres cfg (write_fflags cfg) := by
  intro env c v env2 hi h
  simp only [write_fflags, cpu_riscv_set_fflags] at h
  by_cases hg : env.mstatus &&& MSTATUS_FS = 0
  · rw [if_pos hg] at h
    cases h
  · rw [if_neg hg] at h
    cases h
    exact wpres_fp_or cfg env hi hg

/-- write_frm preserves the mstatus shape invariant. -/
theorem wpres_write_frm (cfg : Config) : WPres cfg (write_frm cfg) := by
  intro env c v env2 hi h
  simp only [write_frm] at h
  by_cases hg : env.mstatus &&& MSTATUS_FS = 0
  · rw [if_pos hg] at h
    cases h
  · rw [if_neg hg] at h
    cases h
    exact wpres_fp_or cfg env hi hg

/-- write_fcsr preserves the mstatus shape invariant. -/
theorem wpres_write_fcsr (cfg : Config) : WPres cfg (write_fcsr cfg) := by
  intro env c v env2 hi h
  simp only [write_fcsr, cpu_riscv_set_fflags] at h
  by_cases hg : env.mstatus &&& MSTATUS_FS = 0
  · rw [if_pos hg] at h
    cases h
  · rw [if_neg hg] at h
    cases h
    exact wpres_fp_or cfg env hi hg

/-- write_mstatus preserves the mstatus shape invariant. -/
theorem wpres_write_mstatus (cfg : Config) :
    WPres cfg (write_mstatus cfg) :=
  fun env c v env2 hi h => write_mstatus_inv cfg env c v env2 hi.1 h

/-- write_sstatus preserves the mstatus shape invariant. -/
theorem wpres_write_sstatus (cfg : Config) :
    WPres cfg (write_sstatus cfg) :=
  fun env c v env2 hi h =>
    write_mstatus_inv cfg env CSR_MSTATUS _ env2 hi.1 h

/-- Every write accessor of the table preserves the mstatus shape
invariant. -/
theorem csr_ops_write_pres (cfg : Config) (c : Nat) :
    ∀ w, (csr_ops cfg c).write = some w → WPres cfg w := by
  intro w hw
  unfold csr_ops at hw
  cases hcl : csrClass cfg c <;> rw [hcl] at hw <;> cases hw <;>
    first
      | exact wpres_write_fflags cfg
      | exact wpres_write_frm cfg
      | exact wpres_write_fcsr cfg
      | exact wpres_write_mstatus cfg
      | exact wpres_write_sstatus cfg
      | exact wpres_of_preserves cfg _ (by
          intro env c2 v env2 h
          simp only [write_medeleg, write_mideleg, write_mie, write_mtvec,
            write_mcounteren, write_mscounteren, write_mucounteren,
            write_mscratch, write_mepc, write_mcause, write_mbadaddr,
            write_sie, write_stvec, write_scounteren, write_sscratch,
            write_sepc, write_scause, write_sbadaddr, write_satp,
            write_pmpcfg, write_pmpaddr, tlb_flush, pmpcfg_csr_write,
            pmpaddr_csr_write] at h
          first
            | (split_ifs at h <;> ((cases h) <;> rfl))
            | ((cases h) <;> rfl))

/-- One riscv_csrrw call preserves the mstatus shape invariant. -/
theorem csrrw_preserves_mstatusInv (cfg : Config) (env : CPURISCVState)
    (c n m : Nat) (hi : mstatusInv cfg env.mstatus) :
    mstatusInv cfg ((riscv_csrrw cfg env c n m).2.2).mstatus := by
  rcases csrrw_cases cfg env c n m with he | ⟨f, hop, he⟩ |
    ⟨rd, old, hop, hrd, hv, he | ⟨hm, w, env2, hw, hres, he⟩⟩
  · rw [he]
    exact hi
  · rw [he]
    rcases csr_ops_op_cases cfg c f hop with hf | hf <;> subst hf
    · show mstatusInv cfg
        ((rmw_mip cfg env c (n &&& wones cfg) (m &&& wones cfg)).2).mstatus
      rw [rmw_mip_mstatus]
      exact hi
    · show mstatusInv cfg
        ((rmw_sip cfg env c (n &&& wones cfg) (m &&& wones cfg)).2).mstatus
      rw [rmw_sip_mstatus]
      exact hi
  · rw [he]
    exact hi
  · rw [he]
    show mstatusInv cfg env2.mstatus
    exact csr_ops_write_pres cfg c w hw env c _ env2 hi hres

/-- The mstatus shape invariant holds in every state reachable by CSR
operations from a state satisfying it. -/
theorem reachable_mstatusInv (cfg : Config) (e0 e : CPURISCVState)
    (h0 : mstatusInv cfg e0.mstatus) (hr : CsrReachable cfg e0 e) :
    mstatusInv cfg e.mstatus := by
  induction hr with
  | refl => exact h0
  | tail hab hbc ih =>
    obtain ⟨c, n, m, hstep⟩ := hbc
    rw [← hstep]
    exact csrrw_preserves_mstatusInv cfg _ c n m ih

/-- C4: in every state reachable by CSR operations (including the
fflags/frm/fcsr writes, which force FS to Dirty) from a reset state
with mstatus = 0, if mstatus.FS == Dirty or mstatus.XS == Dirty then
mstatus.SD == 1. -/
theorem mstatus_sd_reflects_dirty (cfg : Config) (e0 e : CPURISCVState)
    (h0 : e0.mstatus = 0) (hr : CsrReachable cfg e0 e)
    (hd : e.mstatus &&& MSTATUS_FS = MSTATUS_FS ∨
          e.mstatus &&& MSTATUS_XS = MSTATUS_XS) :
    e.mstatus &&& MSTATUS_SD cfg = MSTATUS_SD cfg := by
  have hinv : mstatusInv cfg e.mstatus := by
    refine reachable_mstatusInv cfg e0 e ?_ hr
    rw [h0]
    refine ⟨Nat.zero_and _, Or.inl (Nat.zero_and _), ?_⟩
    rw [Nat.zero_and, Nat.zero_and, if_neg (by decide)]
  rcases hd with hFSd | hXSd
  · rw [hinv.2.2, if_pos hFSd]
  · exact absurd (hinv.1.symm.trans hXSd) (by decide)

/-- C4 witness: after one csrrw writing FS=Dirty to mstatus from the
concrete reset hart, SD is set. -/
theorem mstatus_sd_reflects_dirty_witness :
    ((riscv_csrrw rv64sys hart0 CSR_MSTATUS 0x6000
        (wones rv64sys)).2.2).mstatus &&& MSTATUS_SD rv64sys =
      MSTATUS_SD rv64sys :=
  mstatus_sd_reflects_dirty rv64sys hart0 _ rfl
    (Relation.ReflTransGen.single
      ⟨CSR_MSTATUS, 0x6000, wones rv64sys, rfl⟩)
    (Or.inl (by decide))

/-- C10 (gating part): counter_enabled reports every counter enabled
when the current privilege is M (the selector is -1U). -/
theorem counter_enabled_M (cfg : Config) (env : CPURISCVState) (c : Nat)
    (hpriv : env.priv = PRV_M) : counter_enabled cfg env c = 1 := by
  have hk : c &&& 31 = c % 32 := by
    rw [show (31 : Nat) = 2 ^ 5 - 1 from by decide, land_two_pow_sub_one]
    norm_num
  have hshift : ∀ k, k < 32 → ((0xFFFFFFFF : Nat) >>> k) &&& 1 = 1 := by
    intro k hk2
    interval_cases k <;> decide
  simp only [counter_enabled, hpriv, PRV_M, PRV_U, PRV_S]
  rw [if_neg (by decide), if_neg (by decide), hk]
  exact hshift _ (Nat.mod_lt _ (by norm_num))

/-- C10: at machine mode every counter CSR read succeeds — the
user-level cycle, instret and hpmcounter3..31 numbers as well as the
machine mcycle/minstret — regardless of any counter-enable register,
because the enable check treats M mode as all-enabled. -/
theorem machine_mode_counter_reads (cfg : Config) (env : CPURISCVState)
    (c : Nat) (hpriv : env.priv = PRV_M)
    (hc : c = CSR_CYCLE ∨ c = CSR_INSTRET ∨
          (CSR_HPMCOUNTER3 ≤ c ∧ c ≤ CSR_HPMCOUNTER31) ∨
          c = CSR_MCYCLE ∨ c = CSR_MINSTRET) :
    counter_enabled cfg env c = 1 ∧ (riscv_csrrw cfg env c 0 0).1 = 0 := by
  have henA : ∀ k, counter_enabled cfg env k = 1 :=
    fun k => counter_enabled_M cfg env k hpriv
  refine ⟨henA c, ?_⟩
  have hle3 : get_field cfg c 0x300 ≤ 3 := by
    rw [get_field_csr_priv]
    have h1 : c &&& 0x300 ≤ 0x300 := Nat.and_le_right
    calc (c &&& 0x300) / 0x100 ≤ 0x300 / 0x100 :=
          Nat.div_le_div_right h1
      _ = 3 := by norm_num
  have hg : ¬ (((0 &&& wones cfg) ≠ 0 ∧ get_field cfg c 0xC00 = 3) ∨
      env.priv < get_field cfg c 0x300) := by
    rintro (⟨hz, _⟩ | hlt)
    · exact hz (Nat.zero_and _)
    · rw [hpriv] at hlt
      exact absurd hlt (Nat.not_lt.mpr hle3)
  have hgate : riscv_csrrw cfg env c 0 0 =
      csrDispatch cfg env c (0 &&& wones cfg) (0 &&& wones cfg) := by
    show (if ((0 &&& wones cfg) ≠ 0 ∧ get_field cfg c 0xC00 = 3) ∨
        env.priv < get_field cfg c 0x300 then
        ((-1 : Int), (0 : Nat), env)
      else csrDispatch cfg env c (0 &&& wones cfg) (0 &&& wones cfg)) =
      csrDispatch cfg env c (0 &&& wones cfg) (0 &&& wones cfg)
    rw [if_neg hg]
  rw [hgate, Nat.zero_and]
  rcases hc with h | h | ⟨h1, h2⟩ | h | h
  · subst h
    simp [csrDispatch, csr_ops, csrClass, read_instret, henA,
           CSR_FFLAGS, CSR_FRM, CSR_FCSR, CSR_CYCLE, CSR_TIME, CSR_INSTRET,
           CSR_HPMCOUNTER3, CSR_HPMCOUNTER31, CSR_CYCLEH, CSR_INSTRETH,
           CSR_HPMCOUNTER3H, CSR_HPMCOUNTER31H, CSR_MCYCLE, CSR_MINSTRET,
           CSR_MCYCLEH, CSR_MINSTRETH, CSR_MHPMCOUNTER3,
           CSR_MHPMCOUNTER31, CSR_MHPMCOUNTER3H, CSR_MHPMCOUNTER31H,
           CSR_MHPMEVENT3, CSR_MHPMEVENT31, CSR_MVENDORID, CSR_MARCHID,
           CSR_MIMPID, CSR_MHARTID, CSR_MSTATUS, CSR_MISA, CSR_MEDELEG,
           CSR_MIDELEG, CSR_MIE, CSR_MTVEC, CSR_MCOUNTEREN,
           CSR_MUCOUNTEREN, CSR_MSCOUNTEREN, CSR_MSCRATCH, CSR_MEPC,
           CSR_MCAUSE, CSR_MBADADDR, CSR_MIP, CSR_SSTATUS, CSR_SIE,
           CSR_STVEC, CSR_SCOUNTEREN, CSR_SSCRATCH, CSR_SEPC, CSR_SCAUSE,
           CSR_SBADADDR, CSR_SIP, CSR_SATP, CSR_PMPCFG0, CSR_PMPADDR0,
           CSR_PMPADDR15] <;> (cases hic : cfg.useIcount <;> simp [hic])
  · subst h
    simp [csrDispatch, csr_ops, csrClass, read_instret, henA,
           CSR_FFLAGS, CSR_FRM, CSR_FCSR, CSR_CYCLE, CSR_TIME, CSR_INSTRET,
           CSR_HPMCOUNTER3, CSR_HPMCOUNTER31, CSR_CYCLEH, CSR_INSTRETH,
           CSR_HPMCOUNTER3H, CSR_HPMCOUNTER31H, CSR_MCYCLE, CSR_MINSTRET,
           CSR_MCYCLEH, CSR_MINSTRETH, CSR_MHPMCOUNTER3,
           CSR_MHPMCOUNTER31, CSR_MHPMCOUNTER3H, CSR_MHPMCOUNTER31H,
           CSR_MHPMEVENT3, CSR_MHPMEVENT31, CSR_MVENDORID, CSR_MARCHID,
           CSR_MIMPID, CSR_MHARTID, CSR_MSTATUS, CSR_MISA, CSR_MEDELEG,
           CSR_MIDELEG, CSR_MIE, CSR_MTVEC, CSR_MCOUNTEREN,
           CSR_MUCOUNTEREN, CSR_MSCOUNTEREN, CSR_MSCRATCH, CSR_MEPC,
           CSR_MCAUSE, CSR_MBADADDR, CSR_MIP, CSR_SSTATUS, CSR_SIE,
           CSR_STVEC, CSR_SCOUNTEREN, CSR_SSCRATCH, CSR_SEPC, CSR_SCAUSE,
           CSR_SBADADDR, CSR_SIP, CSR_SATP, CSR_PMPCFG0, CSR_PMPADDR0,
           CSR_PMPADDR15] <;> (cases hic : cfg.useIcount <;> simp [hic])
  · have h3 : (0xC03 : Nat) ≤ c := h1
    have h4 : c ≤ (0xC1F : Nat) := h2
    clear h1 h2
    interval_cases c <;>
      simp_all [csrDispatch, csr_ops, csrClass, read_zero_counter, henA,
           CSR_FFLAGS, CSR_FRM, CSR_FCSR, CSR_CYCLE, CSR_TIME, CSR_INSTRET,
           CSR_HPMCOUNTER3, CSR_HPMCOUNTER31, CSR_CYCLEH, CSR_INSTRETH,
           CSR_HPMCOUNTER3H, CSR_HPMCOUNTER31H, CSR_MCYCLE, CSR_MINSTRET,
           CSR_MCYCLEH, CSR_MINSTRETH, CSR_MHPMCOUNTER3,
           CSR_MHPMCOUNTER31, CSR_MHPMCOUNTER3H, CSR_MHPMCOUNTER31H,
           CSR_MHPMEVENT3, CSR_MHPMEVENT31, CSR_MVENDORID, CSR_MARCHID,
           CSR_MIMPID, CSR_MHARTID, CSR_MSTATUS, CSR_MISA, CSR_MEDELEG,
           CSR_MIDELEG, CSR_MIE, CSR_MTVEC, CSR_MCOUNTEREN,
           CSR_MUCOUNTEREN, CSR_MSCOUNTEREN, CSR_MSCRATCH, CSR_MEPC,
           CSR_MCAUSE, CSR_MBADADDR, CSR_MIP, CSR_SSTATUS, CSR_SIE,
           CSR_STVEC, CSR_SCOUNTEREN, CSR_SSCRATCH, CSR_SEPC, CSR_SCAUSE,
           CSR_SBADADDR, CSR_SIP, CSR_SATP, CSR_PMPCFG0, CSR_PMPADDR0,
           CSR_PMPADDR15]
  · subst h
    simp [csrDispatch, csr_ops, csrClass, read_instret, henA,
           CSR_FFLAGS, CSR_FRM, CSR_FCSR, CSR_CYCLE, CSR_TIME, CSR_INSTRET,
           CSR_HPMCOUNTER3, CSR_HPMCOUNTER31, CSR_CYCLEH, CSR_INSTRETH,
           CSR_HPMCOUNTER3H, CSR_HPMCOUNTER31H, CSR_MCYCLE, CSR_MINSTRET,
           CSR_MCYCLEH, CSR_MINSTRETH, CSR_MHPMCOUNTER3,
           CSR_MHPMCOUNTER31, CSR_MHPMCOUNTER3H, CSR_MHPMCOUNTER31H,
           CSR_MHPMEVENT3, CSR_MHPMEVENT31, CSR_MVENDORID, CSR_MARCHID,
           CSR_MIMPID, CSR_MHARTID, CSR_MSTATUS, CSR_MISA, CSR_MEDELEG,
           CSR_MIDELEG, CSR_MIE, CSR_MTVEC, CSR_MCOUNTEREN,
           CSR_MUCOUNTEREN, CSR_MSCOUNTEREN, CSR_MSCRATCH, CSR_MEPC,
           CSR_MCAUSE, CSR_MBADADDR, CSR_MIP, CSR_SSTATUS, CSR_SIE,
           CSR_STVEC, CSR_SCOUNTEREN, CSR_SSCRATCH, CSR_SEPC, CSR_SCAUSE,
           CSR_SBADADDR, CSR_SIP, CSR_SATP, CSR_PMPCFG0, CSR_PMPADDR0,
           CSR_PMPADDR15] <;> (cases hic : cfg.useIcount <;> simp [hic])
  · subst h
    simp [csrDispatch, csr_ops, csrClass, read_instret, henA,
           CSR_FFLAGS, CSR_FRM, CSR_FCSR, CSR_CYCLE, CSR_TIME, CSR_INSTRET,
           CSR_HPMCOUNTER3, CSR_HPMCOUNTER31, CSR_CYCLEH, CSR_INSTRETH,
           CSR_HPMCOUNTER3H, CSR_HPMCOUNTER31H, CSR_MCYCLE, CSR_MINSTRET,
           CSR_MCYCLEH, CSR_MINSTRETH, CSR_MHPMCOUNTER3,
           CSR_MHPMCOUNTER31, CSR_MHPMCOUNTER3H, CSR_MHPMCOUNTER31H,
           CSR_MHPMEVENT3, CSR_MHPMEVENT31, CSR_MVENDORID, CSR_MARCHID,
           CSR_MIMPID, CSR_MHARTID, CSR_MSTATUS, CSR_MISA, CSR_MEDELEG,
           CSR_MIDELEG, CSR_MIE, CSR_MTVEC, CSR_MCOUNTEREN,
           CSR_MUCOUNTEREN, CSR_MSCOUNTEREN, CSR_MSCRATCH, CSR_MEPC,
           CSR_MCAUSE, CSR_MBADADDR, CSR_MIP, CSR_SSTATUS, CSR_SIE,
           CSR_STVEC, CSR_SCOUNTEREN, CSR_SSCRATCH, CSR_SEPC, CSR_SCAUSE,
           CSR_SBADADDR, CSR_SIP, CSR_SATP, CSR_PMPCFG0, CSR_PMPADDR0,
           CSR_PMPADDR15] <;> (cases hic : cfg.useIcount <;> simp [hic])

/-- C10 witness: at machine mode with both enable registers zero, a
read of the user cycle counter and of hpmcounter3 succeed. -/
theorem machine_mode_counter_reads_witness :
    counter_enabled rv64sys hart0 CSR_CYCLE = 1 ∧
    (riscv_csrrw rv64sys hart0 CSR_CYCLE 0 0).1 = 0 :=
  machine_mode_counter_reads rv64sys hart0 CSR_CYCLE rfl (Or.inl rfl)
